import Mathlib

set_option maxRecDepth 40000

/-!
Shallow embedding of the tic-tac-toe engine (src/src/lib.rs and
src/wasm/src/lib.rs) and a verification of its specification.

Modelling conventions:
- The Rust enum Cell is the inductive Cell below; the array [Cell; 9]
  becomes a List Cell (always of length 9 in the program); reading cells[i]
  becomes getCell (out-of-range reads never occur on the length-9 boards the
  program manipulates) and assignment becomes setCell.
- Rust i32 becomes Int; the sentinels i32::MIN and i32::MAX become intMin
  and intMax.  No arithmetic in the program can overflow i32 (scores only
  ever come from the set -1, 0, 1 or the sentinels), so Int is faithful.
- The recursive minimax terminates in Rust because every recursive call
  fills one empty cell.  Here it takes an explicit fuel argument; fuel 9
  (used by best_move) strictly exceeds the number of empty cells of any
  successor of a 9-cell board, so the fuel-0 branch is never reached in the
  program's own calls.
- The unreachable arm of the opponent computation is modelled by returning
  Cell.Empty; the program only evaluates it with a valid turn.
-/

inductive Cell where
  | Empty : Cell
  | X : Cell
  | O : Cell
deriving DecidableEq

/-- The board is the Rust struct field cells, an array of 9 cells, row-major. -/
abbrev Board := List Cell

/-- Reading cells[i]; all reads made by the program are in range on its
length-9 boards, so the default value is never produced there. -/
def getCell (b : Board) (i : Nat) : Cell :=
  (b.get? i).getD Cell.Empty

/-- Writing cells[i] (List.set, a no-op out of range, which the program
never does). -/
def setCell (b : Board) (i : Nat) (c : Cell) : Board :=
  b.set i c

/-- The constant WIN_CONDITIONS from src/src/lib.rs, in source order. -/
def WIN_CONDITIONS : List (Nat × Nat × Nat) :=
  [(0, 1, 2), (3, 4, 5), (6, 7, 8),
   (0, 3, 6), (1, 4, 7), (2, 5, 8),
   (0, 4, 8), (2, 4, 6)]

/-- Board::new with all nine cells empty. -/
def emptyBoard : Board :=
  List.replicate 9 Cell.Empty

/-- The loop of Board::check_winner: scan the win conditions in source order
and return the owner of the first completed line. -/
def checkWinnerLoop (b : Board) : List (Nat × Nat × Nat) → Option Cell
  | [] => none
  | (x, y, z) :: rest =>
      if getCell b x ≠ Cell.Empty ∧ getCell b x = getCell b y ∧
          getCell b y = getCell b z then
        some (getCell b x)
      else
        checkWinnerLoop b rest

/-- Board::check_winner from src/src/lib.rs. -/
def check_winner (b : Board) : Option Cell :=
  checkWinnerLoop b WIN_CONDITIONS

/-- Board::is_full from src/src/lib.rs: no cell equals Empty. -/
def is_full (b : Board) : Prop :=
  ¬ Cell.Empty ∈ b

instance (b : Board) : Decidable (is_full b) :=
  inferInstanceAs (Decidable (¬ _))

/-- The opponent computation of the source: X and O swap; the third arm is
a return-false in is_block_move (handled at its call site) and unreachable
elsewhere, modelled as Empty. -/
def opponent : Cell → Cell
  | Cell.X => Cell.O
  | Cell.O => Cell.X
  | Cell.Empty => Cell.Empty

/-- Number of cells of a win-condition triple holding symbol c, the
filter-count of is_block_move. -/
def lineCount (b : Board) (t : Nat × Nat × Nat) (c : Cell) : Nat :=
  List.countP (fun d => decide (d = c)) [getCell b t.1, getCell b t.2.1, getCell b t.2.2]

/-- One iteration of the loop of Board::is_block_move: the line contains
the index, the opponent holds exactly two of its cells and one is empty. -/
def blockLine (b : Board) (index : Nat) (opp : Cell) (t : Nat × Nat × Nat) : Bool :=
  decide ((index = t.1 ∨ index = t.2.1 ∨ index = t.2.2) ∧
    lineCount b t opp = 2 ∧ lineCount b t Cell.Empty = 1)

/-- Board::is_block_move from src/src/lib.rs.  An invalid player returns
false (the underscore arm of the source match). -/
def is_block_move (b : Board) (index : Nat) (player : Cell) : Bool :=
  match player with
  | Cell.Empty => false
  | Cell.X => WIN_CONDITIONS.any (blockLine b index Cell.O)
  | Cell.O => WIN_CONDITIONS.any (blockLine b index Cell.X)

/-- The Rust sentinel i32::MIN. -/
def intMin : Int := -(2 ^ 31)

/-- The Rust sentinel i32::MAX. -/
def intMax : Int := 2 ^ 31 - 1

/-- Board::minimax from src/src/lib.rs, with explicit fuel (see the header
comment).  The two loops over 0..9 are folds over List.range 9 carrying the
running best score. -/
def minimax : Nat → Board → Cell → Cell → Int
  | 0, _, _, _ => 0
  | fuel + 1, b, turn, maximizing_player =>
      match check_winner b with
      | some w => if w = maximizing_player then 1 else -1
      | none =>
          if is_full b then 0
          else if turn = maximizing_player then
            (List.range 9).foldl (fun best i =>
              if getCell b i = Cell.Empty then
                max best (minimax fuel (setCell b i turn) (opponent turn) maximizing_player)
              else best) intMin
          else
            (List.range 9).foldl (fun best i =>
              if getCell b i = Cell.Empty then
                min best (minimax fuel (setCell b i turn) (opponent turn) maximizing_player)
              else best) intMax

/-- The loop body of Board::best_move: the mutable pair of best score and
best index of the Rust loop, updated at index i. -/
def bmStep (b : Board) (player : Cell) (s : Int × Option Nat) (i : Nat) :
    Int × Option Nat :=
  if getCell b i = Cell.Empty then
    if minimax 9 (setCell b i player) (opponent player) player > s.1 then
      (minimax 9 (setCell b i player) (opponent player) player, some i)
    else if minimax 9 (setCell b i player) (opponent player) player = s.1 then
      match s.2 with
      | some bm =>
          if is_block_move b i player = true ∧ is_block_move b bm player = false then
            (s.1, some i)
          else s
      | none => s
    else s
  else s

/-- Board::best_move from src/src/lib.rs. -/
def best_move (b : Board) (player : Cell) : Option Nat :=
  if player ≠ Cell.X ∧ player ≠ Cell.O then none
  else ((List.range 9).foldl (bmStep b player) (intMin, none)).2

/-- WasmBoard::make_move from src/wasm/src/lib.rs: returns the success flag
together with the (possibly updated) board; a false flag leaves the board
unchanged. -/
def make_move (b : Board) (index : Nat) (player : Nat) : Bool × Board :=
  if 9 ≤ index ∨ getCell b index ≠ Cell.Empty then (false, b)
  else
    match player with
    | 1 => (true, setCell b index Cell.X)
    | 2 => (true, setCell b index Cell.O)
    | _ => (false, b)

/-! Reference definitions written from the specification text, to be
compared with the source embedding. -/

/-- A win condition whose three cells are equal and non-empty (wording of
spec section 4.1). -/
def lineWonB (b : Board) (t : Nat × Nat × Nat) : Bool :=
  decide (getCell b t.1 ≠ Cell.Empty ∧ getCell b t.1 = getCell b t.2.1 ∧
    getCell b t.2.1 = getCell b t.2.2)

/-- Reference winner function from the spec: the occupying symbol of the
first WinLine, in the fixed enumeration order, whose three cells are equal
and non-empty. -/
def winnerRef (b : Board) : Option Cell :=
  (WIN_CONDITIONS.find? (lineWonB b)).map (fun t => getCell b t.1)

/-- The empty indices of a board, in increasing order. -/
def emptyIdx (b : Board) : List Nat :=
  (List.range 9).filter (fun i => decide (getCell b i = Cell.Empty))

/-- Maximum of a list of scores (0 on the empty list, which the reference
minimax never takes). -/
def listMax : List Int → Int
  | [] => 0
  | x :: xs => xs.foldl max x

/-- Minimum of a list of scores (0 on the empty list, which the reference
minimax never takes). -/
def listMin : List Int → Int
  | [] => 0
  | x :: xs => xs.foldl min x

/-- Reference minimax from the spec (section 4.2): terminal boards score
1, -1 or 0; other boards propagate the maximum (on the maximizing player's
turn) or minimum (otherwise) of the successors' scores. -/
def minimaxRef : Nat → Board → Cell → Cell → Int
  | 0, _, _, _ => 0
  | fuel + 1, b, turn, maxim =>
      match winnerRef b with
      | some w => if w = maxim then 1 else -1
      | none =>
          if is_full b then 0
          else if turn = maxim then
            listMax ((emptyIdx b).map
              (fun i => minimaxRef fuel (setCell b i turn) (opponent turn) maxim))
          else
            listMin ((emptyIdx b).map
              (fun i => minimaxRef fuel (setCell b i turn) (opponent turn) maxim))

/-- Reference loop body of best_move from the spec (section 4.2): track an
optional pair of best score and best index; on strict improvement replace;
on a tie replace only if the candidate blocks and the current best does not. -/
def bmStepRef (b : Board) (player : Cell) (s : Option (Int × Nat)) (i : Nat) :
    Option (Int × Nat) :=
  if getCell b i = Cell.Empty then
    match s with
    | none => some (minimax 9 (setCell b i player) (opponent player) player, i)
    | some si =>
        if minimax 9 (setCell b i player) (opponent player) player > si.1 then
          some (minimax 9 (setCell b i player) (opponent player) player, i)
        else if minimax 9 (setCell b i player) (opponent player) player = si.1 ∧
            is_block_move b i player = true ∧
            is_block_move b si.2 player = false then
          some (minimax 9 (setCell b i player) (opponent player) player, i)
        else some si
  else s

/-- Reference best_move from the spec: nothing for an invalid player,
otherwise the index component of the loop result. -/
def bestMoveRef (b : Board) (player : Cell) : Option Nat :=
  if player = Cell.X ∨ player = Cell.O then
    ((List.range 9).foldl (bmStepRef b player) none).map (fun s => s.2)
  else none

/-- The blocking condition exactly as the spec words it: the index belongs
to some WinLine where the opponent occupies exactly two cells and the third
cell, the index itself, is empty. -/
def specBlock (b : Board) (index : Nat) (player : Cell) : Prop :=
  ∃ t ∈ WIN_CONDITIONS, (index = t.1 ∨ index = t.2.1 ∨ index = t.2.2) ∧
    lineCount b t (opponent player) = 2 ∧ getCell b index = Cell.Empty

/-- A completed line of symbol c on the board. -/
def hasWinLine (b : Board) (c : Cell) : Prop :=
  ∃ t ∈ WIN_CONDITIONS, getCell b t.1 = c ∧ getCell b t.2.1 = c ∧
    getCell b t.2.2 = c

/-! Basic lemmas about cells and boards. -/

theorem getCell_nil (i : Nat) : getCell [] i = Cell.Empty := by
  cases i <;> rfl

theorem getCell_cons_zero (c : Cell) (b : Board) : getCell (c :: b) 0 = c := rfl

theorem getCell_cons_succ (c : Cell) (b : Board) (i : Nat) :
    getCell (c :: b) (i + 1) = getCell b i := rfl

theorem setCell_nil (i : Nat) (c : Cell) : setCell [] i c = [] := rfl

theorem length_setCell (b : Board) (i : Nat) (c : Cell) :
    (setCell b i c).length = b.length :=
  List.length_set b i c

theorem getCell_setCell_self (b : Board) (i : Nat) (c : Cell)
    (h : i < b.length) : getCell (setCell b i c) i = c := by
  induction b generalizing i with
  | nil => simp at h
  | cons d rest ih =>
      cases i with
      | zero => rfl
      | succ j =>
          have hj : j < rest.length := by simpa using h
          simpa [setCell, getCell_cons_succ] using ih j hj

theorem getCell_setCell_ne (b : Board) (i j : Nat) (c : Cell)
    (h : j ≠ i) : getCell (setCell b i c) j = getCell b j := by
  induction b generalizing i j with
  | nil => simp [setCell]
  | cons d rest ih =>
      cases i with
      | zero =>
          cases j with
          | zero => exact absurd rfl h
          | succ k => rfl
      | succ i2 =>
          cases j with
          | zero => rfl
          | succ k =>
              have hk : k ≠ i2 := fun hh => h (by simpa using hh)
              simpa [setCell, getCell_cons_succ] using ih i2 k hk

theorem empty_mem_iff (b : Board) :
    Cell.Empty ∈ b ↔ ∃ i, i < b.length ∧ getCell b i = Cell.Empty := by
  induction b with
  | nil => simp
  | cons c rest ih =>
      constructor
      · intro h
        rcases List.mem_cons.mp h with h | h
        · exact ⟨0, by simp, by simp [h.symm, getCell_cons_zero]⟩
        · rcases ih.mp h with ⟨i, hi, he⟩
          exact ⟨i + 1, by simpa using hi, by simpa [getCell_cons_succ] using he⟩
      · rintro ⟨i, hi, he⟩
        cases i with
        | zero =>
            exact List.mem_cons.mpr (Or.inl (by simpa [getCell_cons_zero] using he.symm))
        | succ j =>
            exact List.mem_cons.mpr (Or.inr
              (ih.mpr ⟨j, by simpa using hi, by simpa [getCell_cons_succ] using he⟩))

/-! Lemmas about folds with a guard, used to analyse the minimax loops. -/

theorem foldl_guard_max (P : Nat → Prop) [DecidablePred P] (f : Nat → Int) :
    ∀ (l : List Nat) (a : Int),
    List.foldl (fun best i => if P i then max best (f i) else best) a l =
      List.foldl max a ((l.filter (fun i => decide (P i))).map f) := by
  intro l
  induction l with
  | nil => intro a; rfl
  | cons i rest ih =>
      intro a
      by_cases h : P i <;> simp [List.filter_cons, h, ih]

theorem foldl_guard_min (P : Nat → Prop) [DecidablePred P] (f : Nat → Int) :
    ∀ (l : List Nat) (a : Int),
    List.foldl (fun best i => if P i then min best (f i) else best) a l =
      List.foldl min a ((l.filter (fun i => decide (P i))).map f) := by
  intro l
  induction l with
  | nil => intro a; rfl
  | cons i rest ih =>
      intro a
      by_cases h : P i <;> simp [List.filter_cons, h, ih]

theorem foldl_max_ge_init : ∀ (l : List Int) (a : Int), a ≤ List.foldl max a l := by
  intro l
  induction l with
  | nil => intro a; exact le_refl a
  | cons x xs ih =>
      intro a
      exact le_trans (le_max_left a x) (ih (max a x))

theorem foldl_min_le_init : ∀ (l : List Int) (a : Int), List.foldl min a l ≤ a := by
  intro l
  induction l with
  | nil => intro a; exact le_refl a
  | cons x xs ih =>
      intro a
      exact le_trans (ih (min a x)) (min_le_left a x)

theorem foldl_max_le : ∀ (l : List Int) (a c : Int), a ≤ c → (∀ x ∈ l, x ≤ c) →
    List.foldl max a l ≤ c := by
  intro l
  induction l with
  | nil => intro a c ha _; exact ha
  | cons x xs ih =>
      intro a c ha hl
      exact ih (max a x) c (max_le ha (hl x (List.mem_cons_self x xs)))
        (fun y hy => hl y (List.mem_cons_of_mem x hy))

theorem foldl_min_ge : ∀ (l : List Int) (a c : Int), c ≤ a → (∀ x ∈ l, c ≤ x) →
    c ≤ List.foldl min a l := by
  intro l
  induction l with
  | nil => intro a c ha _; exact ha
  | cons x xs ih =>
      intro a c ha hl
      exact ih (min a x) c (le_min ha (hl x (List.mem_cons_self x xs)))
        (fun y hy => hl y (List.mem_cons_of_mem x hy))

theorem foldl_max_ge_mem : ∀ (l : List Int) (a x : Int), x ∈ l →
    x ≤ List.foldl max a l := by
  intro l
  induction l with
  | nil => intro a x hx; simp at hx
  | cons y ys ih =>
      intro a x hx
      rcases List.mem_cons.mp hx with h | h
      · subst h
        exact le_trans (le_max_right a x) (foldl_max_ge_init ys (max a x))
      · exact ih (max a y) x h

theorem foldl_min_le_mem : ∀ (l : List Int) (a x : Int), x ∈ l →
    List.foldl min a l ≤ x := by
  intro l
  induction l with
  | nil => intro a x hx; simp at hx
  | cons y ys ih =>
      intro a x hx
      rcases List.mem_cons.mp hx with h | h
      · subst h
        exact le_trans (foldl_min_le_init ys (min a x)) (min_le_right a x)
      · exact ih (min a y) x h

theorem foldl_max_cons_of_le (a x : Int) (xs : List Int) (h : a ≤ x) :
    List.foldl max a (x :: xs) = listMax (x :: xs) := by
  simp [listMax, List.foldl, max_eq_right h]

theorem foldl_min_cons_of_le (a x : Int) (xs : List Int) (h : x ≤ a) :
    List.foldl min a (x :: xs) = listMin (x :: xs) := by
  simp [listMin, List.foldl, min_eq_right h]

theorem foldl_min_map_neg : ∀ (l : List Int) (a : Int),
    List.foldl min (-a) (l.map (fun x => -x)) = -(List.foldl max a l) := by
  intro l
  induction l with
  | nil => intro a; rfl
  | cons x xs ih =>
      intro a
      have h : min (-a) (-x) = -(max a x) := min_neg_neg a x
      simpa [List.foldl, h] using ih (max a x)

theorem listMin_map_neg (l : List Int) :
    listMin (l.map (fun x => -x)) = - listMax l := by
  cases l with
  | nil => simp [listMax, listMin]
  | cons x xs => simpa [listMax, listMin] using foldl_min_map_neg xs x

/-! Lemmas about the winner computation. -/

theorem checkWinnerLoop_eq_find (b : Board) :
    ∀ L, checkWinnerLoop b L = (L.find? (lineWonB b)).map (fun t => getCell b t.1) := by
  intro L
  induction L with
  | nil => rfl
  | cons t rest ih =>
      obtain ⟨x, y, z⟩ := t
      by_cases h : getCell b x ≠ Cell.Empty ∧ getCell b x = getCell b y ∧
          getCell b y = getCell b z
      · have hb : lineWonB b (x, y, z) = true := by
          simp only [lineWonB, decide_eq_true_eq]
          exact h
        simp only [checkWinnerLoop]
        rw [if_pos h, List.find?_cons_of_pos _ hb]
        rfl
      · have hb : ¬ lineWonB b (x, y, z) = true := by
          simp only [lineWonB, decide_eq_true_eq]
          exact h
        simp only [checkWinnerLoop]
        rw [if_neg h, List.find?_cons_of_neg _ hb, ih]

theorem check_winner_eq_winnerRef (b : Board) : check_winner b = winnerRef b :=
  checkWinnerLoop_eq_find b WIN_CONDITIONS

theorem check_winner_ne_empty (b : Board) (w : Cell)
    (h : check_winner b = some w) : w ≠ Cell.Empty := by
  have aux : ∀ L, checkWinnerLoop b L = some w → w ≠ Cell.Empty := by
    intro L
    induction L with
    | nil => intro hh; simp [checkWinnerLoop] at hh
    | cons t rest ih =>
        obtain ⟨x, y, z⟩ := t
        intro hh
        simp only [checkWinnerLoop] at hh
        by_cases hc : getCell b x ≠ Cell.Empty ∧ getCell b x = getCell b y ∧
            getCell b y = getCell b z
        · rw [if_pos hc] at hh
          have := Option.some.inj hh
          rw [← this]
          exact hc.1
        · rw [if_neg hc] at hh
          exact ih hh
  exact aux WIN_CONDITIONS h

theorem check_winner_ne_none_of_winLine (b : Board) (c : Cell)
    (hc : c ≠ Cell.Empty) (h : hasWinLine b c) : check_winner b ≠ none := by
  obtain ⟨t, ht, h1, h2, h3⟩ := h
  intro hn
  rw [check_winner_eq_winnerRef] at hn
  have hfind : WIN_CONDITIONS.find? (lineWonB b) = none := by
    simpa [winnerRef] using hn
  have := List.find?_eq_none.mp hfind t ht
  apply this
  simp [lineWonB, h1, h2, h3]
  exact hc

/-! Unfolding lemmas for minimax. -/

theorem minimax_succ_winner (fuel : Nat) (b : Board) (turn maxim w : Cell)
    (hw : check_winner b = some w) :
    minimax (fuel + 1) b turn maxim = if w = maxim then 1 else -1 := by
  simp [minimax, hw]

theorem minimax_succ_full (fuel : Nat) (b : Board) (turn maxim : Cell)
    (hw : check_winner b = none) (hf : is_full b) :
    minimax (fuel + 1) b turn maxim = 0 := by
  simp [minimax, hw, hf]

theorem minimax_succ_max (fuel : Nat) (b : Board) (turn maxim : Cell)
    (hw : check_winner b = none) (hf : ¬ is_full b) (ht : turn = maxim) :
    minimax (fuel + 1) b turn maxim =
      (List.range 9).foldl (fun best i =>
        if getCell b i = Cell.Empty then
          max best (minimax fuel (setCell b i turn) (opponent turn) maxim)
        else best) intMin := by
  simp only [minimax, hw]
  rw [if_neg hf, if_pos ht]

theorem minimax_succ_min (fuel : Nat) (b : Board) (turn maxim : Cell)
    (hw : check_winner b = none) (hf : ¬ is_full b) (ht : ¬ turn = maxim) :
    minimax (fuel + 1) b turn maxim =
      (List.range 9).foldl (fun best i =>
        if getCell b i = Cell.Empty then
          min best (minimax fuel (setCell b i turn) (opponent turn) maxim)
        else best) intMax := by
  simp only [minimax, hw]
  rw [if_neg hf, if_neg ht]

/-- A non-full length-9 board has an empty index among 0..8. -/
theorem exists_empty_filter (b : Board) (hb : b.length = 9) (hf : ¬ is_full b) :
    ∃ i, i ∈ (List.range 9).filter (fun i => decide (getCell b i = Cell.Empty)) := by
  have hmem : Cell.Empty ∈ b := by
    by_contra hmem
    exact hf hmem
  obtain ⟨i, hi, he⟩ := (empty_mem_iff b).mp hmem
  exact ⟨i, List.mem_filter.mpr ⟨List.mem_range.mpr (hb ▸ hi), by simp [he]⟩⟩

/-! Bounds on minimax scores. -/

theorem minimax_bounds : ∀ (fuel : Nat) (b : Board) (t m : Cell),
    b.length = 9 → -1 ≤ minimax fuel b t m ∧ minimax fuel b t m ≤ 1 := by
  intro fuel
  induction fuel with
  | zero => intro b t m _; simp [minimax]
  | succ fuel ih =>
      intro b t m hb
      cases hw : check_winner b with
      | some w =>
          rw [minimax_succ_winner fuel b t m w hw]
          by_cases h : w = m <;> simp [h]
      | none =>
          by_cases hf : is_full b
          · rw [minimax_succ_full fuel b t m hw hf]
            norm_num
          · by_cases ht : t = m
            · rw [minimax_succ_max fuel b t m hw hf ht]
              rw [foldl_guard_max (fun i => getCell b i = Cell.Empty)
                (fun i => minimax fuel (setCell b i t) (opponent t) m)]
              constructor
              · obtain ⟨i, hi⟩ := exists_empty_filter b hb hf
                refine le_trans ((ih (setCell b i t) (opponent t) m
                  (by simp [length_setCell, hb])).1) ?_
                exact foldl_max_ge_mem _ _ _ (List.mem_map_of_mem _ hi)
              · apply foldl_max_le
                · simp [intMin]
                · intro x hx
                  obtain ⟨i, hi, hxe⟩ := List.mem_map.mp hx
                  rw [← hxe]
                  exact (ih _ _ _ (by simp [length_setCell, hb])).2
            · rw [minimax_succ_min fuel b t m hw hf ht]
              rw [foldl_guard_min (fun i => getCell b i = Cell.Empty)
                (fun i => minimax fuel (setCell b i t) (opponent t) m)]
              constructor
              · apply foldl_min_ge
                · simp [intMax]
                · intro x hx
                  obtain ⟨i, hi, hxe⟩ := List.mem_map.mp hx
                  rw [← hxe]
                  exact (ih _ _ _ (by simp [length_setCell, hb])).1
              · obtain ⟨i, hi⟩ := exists_empty_filter b hb hf
                refine le_trans ?_ ((ih (setCell b i t) (opponent t) m
                  (by simp [length_setCell, hb])).2)
                exact foldl_min_le_mem _ _ _ (List.mem_map_of_mem _ hi)

/-! Converting the minimax loops into list maxima and minima. -/

theorem guardMax_eq_listMax (b : Board) (hb : b.length = 9) (hf : ¬ is_full b)
    (f : Nat → Int) (hlow : ∀ i, -1 ≤ f i) :
    (List.range 9).foldl (fun best i =>
      if getCell b i = Cell.Empty then max best (f i) else best) intMin =
      listMax ((emptyIdx b).map f) := by
  rw [foldl_guard_max (fun i => getCell b i = Cell.Empty) f]
  obtain ⟨j, hj⟩ := exists_empty_filter b hb hf
  simp only [emptyIdx]
  cases hL : ((List.range 9).filter fun i => decide (getCell b i = Cell.Empty)).map f with
  | nil =>
      rw [List.map_eq_nil_iff] at hL
      rw [hL] at hj
      simp at hj
  | cons x xs =>
      have hxm : x ∈ ((List.range 9).filter
          fun i => decide (getCell b i = Cell.Empty)).map f := by
        rw [hL]
        exact List.mem_cons_self x xs
      obtain ⟨i, _, hxe⟩ := List.mem_map.mp hxm
      have hx : -1 ≤ x := hxe ▸ hlow i
      exact foldl_max_cons_of_le _ _ _ (le_trans (by norm_num [intMin]) hx)

theorem guardMin_eq_listMin (b : Board) (hb : b.length = 9) (hf : ¬ is_full b)
    (f : Nat → Int) (hhigh : ∀ i, f i ≤ 1) :
    (List.range 9).foldl (fun best i =>
      if getCell b i = Cell.Empty then min best (f i) else best) intMax =
      listMin ((emptyIdx b).map f) := by
  rw [foldl_guard_min (fun i => getCell b i = Cell.Empty) f]
  obtain ⟨j, hj⟩ := exists_empty_filter b hb hf
  simp only [emptyIdx]
  cases hL : ((List.range 9).filter fun i => decide (getCell b i = Cell.Empty)).map f with
  | nil =>
      rw [List.map_eq_nil_iff] at hL
      rw [hL] at hj
      simp at hj
  | cons x xs =>
      have hxm : x ∈ ((List.range 9).filter
          fun i => decide (getCell b i = Cell.Empty)).map f := by
        rw [hL]
        exact List.mem_cons_self x xs
      obtain ⟨i, _, hxe⟩ := List.mem_map.mp hxm
      have hx : x ≤ 1 := hxe ▸ hhigh i
      exact foldl_min_cons_of_le _ _ _ (le_trans hx (by norm_num [intMax]))

/-! The source minimax agrees with the reference minimax of the spec. -/

theorem minimax_eq_ref : ∀ (fuel : Nat) (b : Board) (t m : Cell),
    b.length = 9 → (t = Cell.X ∨ t = Cell.O) →
    minimax fuel b t m = minimaxRef fuel b t m := by
  intro fuel
  induction fuel with
  | zero => intro b t m _ _; simp [minimax, minimaxRef]
  | succ fuel ih =>
      intro b t m hb ht
      have hvalid : opponent t = Cell.X ∨ opponent t = Cell.O := by
        rcases ht with h | h <;> simp [h, opponent]
      cases hw : check_winner b with
      | some w =>
          have hw2 : winnerRef b = some w := (check_winner_eq_winnerRef b) ▸ hw
          rw [minimax_succ_winner fuel b t m w hw]
          simp [minimaxRef, hw2]
      | none =>
          have hw2 : winnerRef b = none := (check_winner_eq_winnerRef b) ▸ hw
          by_cases hf : is_full b
          · rw [minimax_succ_full fuel b t m hw hf]
            simp [minimaxRef, hw2, hf]
          · have hmap : (emptyIdx b).map
                (fun i => minimax fuel (setCell b i t) (opponent t) m) =
                (emptyIdx b).map
                (fun i => minimaxRef fuel (setCell b i t) (opponent t) m) :=
              List.map_congr_left
                (fun i _ => ih _ _ _ (by simp [setCell, hb]) hvalid)
            by_cases htm : t = m
            · rw [minimax_succ_max fuel b t m hw hf htm]
              rw [guardMax_eq_listMax b hb hf _
                (fun i => (minimax_bounds fuel _ _ _ (by simp [setCell, hb])).1)]
              rw [hmap]
              simp only [minimaxRef, hw2]
              rw [if_neg hf, if_pos htm]
            · rw [minimax_succ_min fuel b t m hw hf htm]
              rw [guardMin_eq_listMin b hb hf _
                (fun i => (minimax_bounds fuel _ _ _ (by simp [setCell, hb])).2)]
              rw [hmap]
              simp only [minimaxRef, hw2]
              rw [if_neg hf, if_neg htm]

/-! Minimax is antisymmetric in the maximizing player. -/

theorem minimax_neg : ∀ (fuel : Nat) (b : Board) (t : Cell),
    b.length = 9 → (t = Cell.X ∨ t = Cell.O) →
    minimax fuel b t Cell.X = - minimax fuel b t Cell.O := by
  intro fuel
  induction fuel with
  | zero => intro b t _ _; simp [minimax]
  | succ fuel ih =>
      intro b t hb ht
      cases hw : check_winner b with
      | some w =>
          rw [minimax_succ_winner fuel b t Cell.X w hw,
            minimax_succ_winner fuel b t Cell.O w hw]
          have hwe := check_winner_ne_empty b w hw
          cases w with
          | Empty => exact absurd rfl hwe
          | X => decide
          | O => decide
      | none =>
          by_cases hf : is_full b
          · rw [minimax_succ_full fuel b t Cell.X hw hf,
              minimax_succ_full fuel b t Cell.O hw hf]
            norm_num
          · have hvalid : opponent t = Cell.X ∨ opponent t = Cell.O := by
              rcases ht with h | h <;> simp [h, opponent]
            have hpoint : (emptyIdx b).map
                (fun i => minimax fuel (setCell b i t) (opponent t) Cell.O) =
                ((emptyIdx b).map
                (fun i => minimax fuel (setCell b i t) (opponent t) Cell.X)).map
                (fun x => -x) := by
              rw [List.map_map]
              refine List.map_congr_left (fun i _ => ?_)
              have := ih (setCell b i t) (opponent t) (by simp [setCell, hb]) hvalid
              simp only [Function.comp]
              omega
            rcases ht with ht | ht
            · subst ht
              rw [minimax_succ_max fuel b Cell.X Cell.X hw hf rfl,
                minimax_succ_min fuel b Cell.X Cell.O hw hf (by decide)]
              rw [guardMax_eq_listMax b hb hf _
                (fun i => (minimax_bounds fuel _ _ _ (by simp [setCell, hb])).1)]
              rw [guardMin_eq_listMin b hb hf _
                (fun i => (minimax_bounds fuel _ _ _ (by simp [setCell, hb])).2)]
              rw [hpoint, listMin_map_neg]
              omega
            · subst ht
              rw [minimax_succ_min fuel b Cell.O Cell.X hw hf (by decide),
                minimax_succ_max fuel b Cell.O Cell.O hw hf rfl]
              rw [guardMin_eq_listMin b hb hf _
                (fun i => (minimax_bounds fuel _ _ _ (by simp [setCell, hb])).2)]
              rw [guardMax_eq_listMax b hb hf _
                (fun i => (minimax_bounds fuel _ _ _ (by simp [setCell, hb])).1)]
              have hpoint2 : (emptyIdx b).map
                  (fun i => minimax fuel (setCell b i Cell.O) (opponent Cell.O) Cell.X) =
                  ((emptyIdx b).map
                  (fun i => minimax fuel (setCell b i Cell.O) (opponent Cell.O) Cell.O)).map
                  (fun x => -x) := by
                rw [List.map_map]
                refine List.map_congr_left (fun i _ => ?_)
                have := ih (setCell b i Cell.O) (opponent Cell.O)
                  (by simp [setCell, hb]) (by decide)
                simp only [Function.comp]
                omega
              rw [hpoint2, listMin_map_neg]

/-! Lemmas about the best_move loop. -/

theorem bmStep_not_empty (b : Board) (p : Cell) (s : Int × Option Nat) (i : Nat)
    (h : ¬ getCell b i = Cell.Empty) : bmStep b p s i = s := by
  unfold bmStep
  rw [if_neg h]

theorem bmStep_snd (b : Board) (p : Cell) (s : Int × Option Nat) (i : Nat) :
    (bmStep b p s i).2 = s.2 ∨
      ((bmStep b p s i).2 = some i ∧ getCell b i = Cell.Empty) := by
  obtain ⟨a, so⟩ := s
  unfold bmStep
  dsimp only
  by_cases h1 : getCell b i = Cell.Empty
  · rw [if_pos h1]
    by_cases h2 : minimax 9 (setCell b i p) (opponent p) p > a
    · rw [if_pos h2]
      exact Or.inr ⟨rfl, h1⟩
    · rw [if_neg h2]
      by_cases h3 : minimax 9 (setCell b i p) (opponent p) p = a
      · rw [if_pos h3]
        cases so with
        | none => exact Or.inl (by trivial)
        | some bm =>
            dsimp only
            by_cases h4 : is_block_move b i p = true ∧ is_block_move b bm p = false
            · rw [if_pos h4]
              exact Or.inr ⟨rfl, h1⟩
            · rw [if_neg h4]
              exact Or.inl (by trivial)
      · rw [if_neg h3]
        exact Or.inl (by trivial)
  · rw [if_neg h1]
    exact Or.inl (by trivial)

theorem bm_fold_inv (b : Board) (p : Cell) :
    ∀ (l : List Nat) (s : Int × Option Nat),
    (∀ j, s.2 = some j → j < 9 ∧ getCell b j = Cell.Empty) →
    (∀ i ∈ l, i < 9) →
    ∀ j, (List.foldl (bmStep b p) s l).2 = some j →
      j < 9 ∧ getCell b j = Cell.Empty := by
  intro l
  induction l with
  | nil => intro s hs _ j hj; exact hs j hj
  | cons i rest ih =>
      intro s hs hl j hj
      refine ih (bmStep b p s i) ?_ (fun i2 hi2 => hl i2 (List.mem_cons_of_mem i hi2)) j hj
      intro j2 hj2
      rcases bmStep_snd b p s i with h | h
      · exact hs j2 (h ▸ hj2)
      · have hji : j2 = i := by
          rw [h.1] at hj2
          exact (Option.some.inj hj2).symm
        rw [hji]
        exact ⟨hl i (List.mem_cons_self i rest), h.2⟩

theorem bm_fold_const (b : Board) (p : Cell) :
    ∀ (l : List Nat) (s : Int × Option Nat),
    (∀ i ∈ l, ¬ getCell b i = Cell.Empty) →
    List.foldl (bmStep b p) s l = s := by
  intro l
  induction l with
  | nil => intro s _; rfl
  | cons i rest ih =>
      intro s h
      have h1 := bmStep_not_empty b p s i (h i (List.mem_cons_self i rest))
      calc List.foldl (bmStep b p) s (i :: rest)
          = List.foldl (bmStep b p) (bmStep b p s i) rest := rfl
        _ = List.foldl (bmStep b p) s rest := by rw [h1]
        _ = s := ih s (fun i2 hi2 => h i2 (List.mem_cons_of_mem i hi2))

theorem bm_fold_some (b : Board) (p : Cell) :
    ∀ (l : List Nat) (s : Int × Option Nat) (j : Nat), s.2 = some j →
    ∃ j2, (List.foldl (bmStep b p) s l).2 = some j2 := by
  intro l
  induction l with
  | nil => intro s j hj; exact ⟨j, hj⟩
  | cons i rest ih =>
      intro s j hj
      rcases bmStep_snd b p s i with h | h
      · exact ih (bmStep b p s i) j (h.trans hj)
      · exact ih (bmStep b p s i) i h.1

theorem bm_fold_reaches_some (b : Board) (p : Cell) (hb : b.length = 9) :
    ∀ (l : List Nat) (s : Int × Option Nat), s.1 < -1 →
    (∃ i ∈ l, getCell b i = Cell.Empty) →
    ∃ j, (List.foldl (bmStep b p) s l).2 = some j := by
  intro l
  induction l with
  | nil => intro s _ he; simp at he
  | cons i rest ih =>
      intro s hs he
      by_cases h1 : getCell b i = Cell.Empty
      · have hgt : minimax 9 (setCell b i p) (opponent p) p > s.1 := by
          have := (minimax_bounds 9 (setCell b i p) (opponent p) p
            (by simp [setCell, hb])).1
          omega
        have hstep : (bmStep b p s i).2 = some i := by
          unfold bmStep
          rw [if_pos h1, if_pos hgt]
        exact bm_fold_some b p rest (bmStep b p s i) i hstep
      · obtain ⟨i2, hi2, he2⟩ := he
        have : i2 ∈ rest := by
          rcases List.mem_cons.mp hi2 with h | h
          · exact absurd (h ▸ he2) h1
          · exact h
        rw [List.foldl_cons, bmStep_not_empty b p s i h1]
        exact ih s hs ⟨i2, this, he2⟩

/-! Relation between the source loop state and the reference loop state. -/

def bmRel (s : Int × Option Nat) (r : Option (Int × Nat)) : Prop :=
  (s.1 = intMin ∧ s.2 = none ∧ r = none) ∨
    (∃ i, s.2 = some i ∧ r = some (s.1, i) ∧ -1 ≤ s.1 ∧ s.1 ≤ 1)

theorem bmStep_rel (b : Board) (p : Cell) (hb : b.length = 9)
    (s : Int × Option Nat) (r : Option (Int × Nat)) (i : Nat) (h : bmRel s r) :
    bmRel (bmStep b p s i) (bmStepRef b p r i) := by
  obtain ⟨a, so⟩ := s
  by_cases h1 : getCell b i = Cell.Empty
  · have hbd := minimax_bounds 9 (setCell b i p) (opponent p) p (by simp [setCell, hb])
    rcases h with ⟨ha, hso, hr⟩ | ⟨j, hso, hr, hlo, hhi⟩
    · dsimp only at ha hso hr
      subst ha hso hr
      have hgt : minimax 9 (setCell b i p) (opponent p) p > intMin := by
        have := hbd.1
        simp only [intMin]
        omega
      unfold bmStep bmStepRef
      dsimp only
      rw [if_pos h1, if_pos h1, if_pos hgt]
      exact Or.inr ⟨i, rfl, rfl, hbd.1, hbd.2⟩
    · dsimp only at hso hr
      subst hso hr
      unfold bmStep bmStepRef
      dsimp only
      rw [if_pos h1, if_pos h1]
      by_cases h2 : minimax 9 (setCell b i p) (opponent p) p > a
      · rw [if_pos h2, if_pos h2]
        exact Or.inr ⟨i, rfl, rfl, hbd.1, hbd.2⟩
      · rw [if_neg h2, if_neg h2]
        by_cases h3 : minimax 9 (setCell b i p) (opponent p) p = a
        · rw [if_pos h3]
          by_cases h4 : is_block_move b i p = true ∧ is_block_move b j p = false
          · have hcond : minimax 9 (setCell b i p) (opponent p) p = a ∧
                is_block_move b i p = true ∧ is_block_move b j p = false := ⟨h3, h4⟩
            rw [if_pos h4, if_pos hcond]
            exact Or.inr ⟨i, rfl, by rw [h3], hlo, hhi⟩
          · have hcond : ¬ (minimax 9 (setCell b i p) (opponent p) p = a ∧
                is_block_move b i p = true ∧ is_block_move b j p = false) :=
              fun hc => h4 hc.2
            rw [if_neg h4, if_neg hcond]
            exact Or.inr ⟨j, rfl, rfl, hlo, hhi⟩
        · have hcond : ¬ (minimax 9 (setCell b i p) (opponent p) p = a ∧
              is_block_move b i p = true ∧ is_block_move b j p = false) :=
            fun hc => h3 hc.1
          rw [if_neg h3, if_neg hcond]
          exact Or.inr ⟨j, rfl, rfl, hlo, hhi⟩
  · unfold bmStep bmStepRef
    rw [if_neg h1, if_neg h1]
    exact h

theorem bm_fold_rel (b : Board) (p : Cell) (hb : b.length = 9) :
    ∀ (l : List Nat) (s : Int × Option Nat) (r : Option (Int × Nat)),
    bmRel s r →
    bmRel (List.foldl (bmStep b p) s l) (List.foldl (bmStepRef b p) r l) := by
  intro l
  induction l with
  | nil => intro s r h; exact h
  | cons i rest ih =>
      intro s r h
      exact ih (bmStep b p s i) (bmStepRef b p r i) (bmStep_rel b p hb s r i h)

/-! A certificate checker: a strategy tree witnesses that the maximizing
player can secure at least a draw (minimax score at least 0) from a given
position.  At the maximizing player's turn the tree names one move; at the
other player's turn it carries one subtree per empty cell, in increasing
cell order. -/

inductive GTree where
  | mv : Nat → GTree → GTree
  | rsp : List GTree → GTree

/-- Walk the cells in idxs order; for every empty cell consume the next
subtree of ts and check it on the successor board. -/
def goResp (chk : Board → GTree → Bool) (b : Board) (turn : Cell) :
    List Nat → List GTree → Bool
  | [], _ => true
  | i :: rest, ts =>
      if getCell b i = Cell.Empty then
        match ts with
        | [] => false
        | t :: ts2 => chk (setCell b i turn) t && goResp chk b turn rest ts2
      else goResp chk b turn rest ts

/-- Check that a strategy tree secures at least a draw for maxim from the
given position with the given side to move. -/
def checkGE : Nat → Board → Cell → Cell → GTree → Bool
  | 0, _, _, _, _ => false
  | fuel + 1, b, turn, maxim, t =>
      match check_winner b with
      | some w => decide (w = maxim)
      | none =>
          if is_full b then true
          else if turn = maxim then
            match t with
            | GTree.mv i t2 =>
                decide (i < 9) && decide (getCell b i = Cell.Empty) &&
                  checkGE fuel (setCell b i turn) (opponent turn) maxim t2
            | GTree.rsp _ => false
          else
            match t with
            | GTree.rsp ts =>
                goResp (fun b2 t2 => checkGE fuel b2 (opponent turn) maxim t2)
                  b turn (List.range 9) ts
            | GTree.mv _ _ => false

theorem goResp_sound (chk : Board → GTree → Bool) (b : Board) (turn : Cell) :
    ∀ (idxs : List Nat) (ts : List GTree), goResp chk b turn idxs ts = true →
    ∀ i ∈ idxs, getCell b i = Cell.Empty →
    ∃ t, chk (setCell b i turn) t = true := by
  intro idxs
  induction idxs with
  | nil => intro ts _ i hi; simp at hi
  | cons i0 rest ih =>
      intro ts hg i hi he
      simp only [goResp] at hg
      by_cases h0 : getCell b i0 = Cell.Empty
      · rw [if_pos h0] at hg
        cases ts with
        | nil => simp at hg
        | cons t ts2 =>
            rw [Bool.and_eq_true] at hg
            rcases List.mem_cons.mp hi with hii | hii
            · exact ⟨t, hii ▸ hg.1⟩
            · exact ih ts2 hg.2 i hii he
      · rw [if_neg h0] at hg
        rcases List.mem_cons.mp hi with hii | hii
        · exact absurd (hii ▸ he) h0
        · exact ih ts hg i hii he

theorem checkGE_sound : ∀ (fuel : Nat) (b : Board) (turn maxim : Cell) (t : GTree),
    checkGE fuel b turn maxim t = true → 0 ≤ minimax fuel b turn maxim := by
  intro fuel
  induction fuel with
  | zero => intro b turn maxim t h; simp [checkGE] at h
  | succ fuel ih =>
      intro b turn maxim t h
      cases hw : check_winner b with
      | some w =>
          rw [minimax_succ_winner fuel b turn maxim w hw]
          have hwm : w = maxim := by
            simp only [checkGE, hw] at h
            exact of_decide_eq_true h
          rw [if_pos hwm]
          norm_num
      | none =>
          by_cases hf : is_full b
          · rw [minimax_succ_full fuel b turn maxim hw hf]
          · by_cases ht : turn = maxim
            · simp only [checkGE, hw] at h
              rw [if_neg hf, if_pos ht] at h
              cases t with
              | rsp ts => simp at h
              | mv i t2 =>
                  rw [Bool.and_eq_true, Bool.and_eq_true] at h
                  obtain ⟨⟨hi9, hie⟩, hrec⟩ := h
                  have hi9b : i < 9 := of_decide_eq_true hi9
                  have hieb : getCell b i = Cell.Empty := of_decide_eq_true hie
                  have hch := ih _ _ _ _ hrec
                  rw [minimax_succ_max fuel b turn maxim hw hf ht]
                  rw [foldl_guard_max (fun i => getCell b i = Cell.Empty)
                    (fun i => minimax fuel (setCell b i turn) (opponent turn) maxim)]
                  refine le_trans hch (foldl_max_ge_mem _ _ _ ?_)
                  exact List.mem_map_of_mem _ (List.mem_filter.mpr
                    ⟨List.mem_range.mpr hi9b, by simp [hieb]⟩)
            · simp only [checkGE, hw] at h
              rw [if_neg hf, if_neg ht] at h
              cases t with
              | mv i t2 => simp at h
              | rsp ts =>
                  have hpt := goResp_sound _ b turn (List.range 9) ts h
                  rw [minimax_succ_min fuel b turn maxim hw hf ht]
                  rw [foldl_guard_min (fun i => getCell b i = Cell.Empty)
                    (fun i => minimax fuel (setCell b i turn) (opponent turn) maxim)]
                  apply foldl_min_ge
                  · norm_num [intMax]
                  · intro x hx
                    obtain ⟨i, hif, hxe⟩ := List.mem_map.mp hx
                    have hie : getCell b i = Cell.Empty := by
                      have := (List.mem_filter.mp hif).2
                      simpa using this
                    obtain ⟨t2, ht2⟩ := hpt i (List.mem_filter.mp hif).1 hie
                    rw [← hxe]
                    exact ih _ _ _ _ ht2

/-! Boards reachable by legal alternating play from the empty board,
stopping as soon as a player has won.  The second component is the side to
move. -/

instance (b : Board) (c : Cell) : Decidable (hasWinLine b c) := by
  unfold hasWinLine
  infer_instance

instance (b : Board) (i : Nat) (p : Cell) : Decidable (specBlock b i p) := by
  unfold specBlock
  infer_instance

inductive Reachable : Board → Cell → Prop where
  | start : ∀ p, (p = Cell.X ∨ p = Cell.O) → Reachable emptyBoard p
  | move : ∀ b p i, Reachable b p → i < 9 → getCell b i = Cell.Empty →
      check_winner b = none → Reachable (setCell b i p) (opponent p)

theorem reachable_length (b : Board) (p : Cell) (h : Reachable b p) :
    b.length = 9 := by
  induction h with
  | start p hp => simp [emptyBoard]
  | move b p i hr hi he hw ih => simpa [setCell] using ih

theorem reachable_valid (b : Board) (p : Cell) (h : Reachable b p) :
    p = Cell.X ∨ p = Cell.O := by
  induction h with
  | start p hp => exact hp
  | move b p i hr hi he hw ih => rcases ih with h2 | h2 <;> simp [h2, opponent]

/-- A completed line of a symbol different from the one just placed was
already complete before the placement. -/
theorem hasWinLine_set (b : Board) (i : Nat) (p q : Cell) (hlen : b.length = 9)
    (hi : i < 9) (hq : q ≠ p) (h : hasWinLine (setCell b i p) q) :
    hasWinLine b q := by
  obtain ⟨t, htm, h1, h2, h3⟩ := h
  have hgi : getCell (setCell b i p) i = p :=
    getCell_setCell_self b i p (by rw [hlen]; exact hi)
  have k1 : t.1 ≠ i := by
    intro hh
    apply hq
    rw [← h1, hh, hgi]
  have k2 : t.2.1 ≠ i := by
    intro hh
    apply hq
    rw [← h2, hh, hgi]
  have k3 : t.2.2 ≠ i := by
    intro hh
    apply hq
    rw [← h3, hh, hgi]
  refine ⟨t, htm, ?_, ?_, ?_⟩
  · rw [← getCell_setCell_ne b i t.1 p k1]
    exact h1
  · rw [← getCell_setCell_ne b i t.2.1 p k2]
    exact h2
  · rw [← getCell_setCell_ne b i t.2.2 p k3]
    exact h3

theorem reachable_no_double_win (b : Board) (p : Cell) (h : Reachable b p) :
    ¬ (hasWinLine b Cell.X ∧ hasWinLine b Cell.O) := by
  induction h with
  | start p hp =>
      rintro ⟨hX, _⟩
      exact absurd hX (by decide)
  | move b p i hr hi he hw ih =>
      rintro ⟨hX, hO⟩
      have hlen := reachable_length b p hr
      rcases reachable_valid b p hr with hp2 | hp2
      · subst hp2
        have hOb : hasWinLine b Cell.O :=
          hasWinLine_set b i Cell.X Cell.O hlen hi (by decide) hO
        exact check_winner_ne_none_of_winLine b Cell.O (by decide) hOb hw
      · subst hp2
        have hXb : hasWinLine b Cell.X :=
          hasWinLine_set b i Cell.O Cell.X hlen hi (by decide) hX
        exact check_winner_ne_none_of_winLine b Cell.X (by decide) hXb hw

/-! Strategy-tree certificates for the openings (generated data,
verified below by the checker). -/

def tOppX0 : GTree :=
  GTree.mv 4 (GTree.rsp [GTree.mv 2 (GTree.rsp [GTree.mv 6 (GTree.rsp []), GTree.mv 6
    (GTree.rsp []), GTree.mv 3 (GTree.rsp [GTree.mv 7 (GTree.rsp [GTree.rsp []]), GTree.mv 5
    (GTree.rsp []), GTree.mv 5 (GTree.rsp [])]), GTree.mv 6 (GTree.rsp []), GTree.mv 6
    (GTree.rsp [])]), GTree.mv 1 (GTree.rsp [GTree.mv 7 (GTree.rsp []), GTree.mv 7 (GTree.rsp
    []), GTree.mv 7 (GTree.rsp []), GTree.mv 3 (GTree.rsp [GTree.mv 8 (GTree.rsp [GTree.rsp
    []]), GTree.mv 5 (GTree.rsp []), GTree.mv 5 (GTree.rsp [])]), GTree.mv 7 (GTree.rsp [])]),
    GTree.mv 6 (GTree.rsp [GTree.mv 2 (GTree.rsp []), GTree.mv 1 (GTree.rsp [GTree.mv 7
    (GTree.rsp []), GTree.mv 5 (GTree.rsp [GTree.rsp []]), GTree.mv 7 (GTree.rsp [])]),
    GTree.mv 2 (GTree.rsp []), GTree.mv 2 (GTree.rsp []), GTree.mv 2 (GTree.rsp [])]), GTree.mv
    1 (GTree.rsp [GTree.mv 7 (GTree.rsp []), GTree.mv 7 (GTree.rsp []), GTree.mv 7 (GTree.rsp
    []), GTree.mv 6 (GTree.rsp [GTree.mv 8 (GTree.rsp [GTree.rsp []]), GTree.mv 2 (GTree.rsp
    []), GTree.mv 2 (GTree.rsp [])]), GTree.mv 7 (GTree.rsp [])]), GTree.mv 3 (GTree.rsp
    [GTree.mv 5 (GTree.rsp []), GTree.mv 5 (GTree.rsp []), GTree.mv 1 (GTree.rsp [GTree.mv 7
    (GTree.rsp []), GTree.mv 8 (GTree.rsp [GTree.rsp []]), GTree.mv 7 (GTree.rsp [])]),
    GTree.mv 5 (GTree.rsp []), GTree.mv 5 (GTree.rsp [])]), GTree.mv 3 (GTree.rsp [GTree.mv 5
    (GTree.rsp []), GTree.mv 5 (GTree.rsp []), GTree.mv 2 (GTree.rsp [GTree.mv 6 (GTree.rsp
    []), GTree.mv 8 (GTree.rsp [GTree.rsp []]), GTree.mv 6 (GTree.rsp [])]), GTree.mv 5
    (GTree.rsp []), GTree.mv 5 (GTree.rsp [])]), GTree.mv 1 (GTree.rsp [GTree.mv 7 (GTree.rsp
    []), GTree.mv 7 (GTree.rsp []), GTree.mv 7 (GTree.rsp []), GTree.mv 7 (GTree.rsp []),
    GTree.mv 6 (GTree.rsp [GTree.mv 5 (GTree.rsp [GTree.rsp []]), GTree.mv 2 (GTree.rsp []),
    GTree.mv 2 (GTree.rsp [])])])])

def tOppX1 : GTree :=
  GTree.mv 4 (GTree.rsp [GTree.mv 2 (GTree.rsp [GTree.mv 6 (GTree.rsp []), GTree.mv 6
    (GTree.rsp []), GTree.mv 3 (GTree.rsp [GTree.mv 7 (GTree.rsp [GTree.rsp []]), GTree.mv 5
    (GTree.rsp []), GTree.mv 5 (GTree.rsp [])]), GTree.mv 6 (GTree.rsp []), GTree.mv 6
    (GTree.rsp [])]), GTree.mv 0 (GTree.rsp [GTree.mv 8 (GTree.rsp []), GTree.mv 8 (GTree.rsp
    []), GTree.mv 8 (GTree.rsp []), GTree.mv 8 (GTree.rsp []), GTree.mv 5 (GTree.rsp [GTree.mv
    6 (GTree.rsp [GTree.rsp []]), GTree.mv 3 (GTree.rsp []), GTree.mv 3 (GTree.rsp [])])]),
    GTree.mv 0 (GTree.rsp [GTree.mv 8 (GTree.rsp []), GTree.mv 8 (GTree.rsp []), GTree.mv 8
    (GTree.rsp []), GTree.mv 8 (GTree.rsp []), GTree.mv 2 (GTree.rsp [GTree.mv 6 (GTree.rsp
    []), GTree.mv 7 (GTree.rsp [GTree.rsp []]), GTree.mv 6 (GTree.rsp [])])]), GTree.mv 0
    (GTree.rsp [GTree.mv 8 (GTree.rsp []), GTree.mv 8 (GTree.rsp []), GTree.mv 8 (GTree.rsp
    []), GTree.mv 8 (GTree.rsp []), GTree.mv 2 (GTree.rsp [GTree.mv 6 (GTree.rsp []), GTree.mv
    7 (GTree.rsp [GTree.rsp []]), GTree.mv 6 (GTree.rsp [])])]), GTree.mv 3 (GTree.rsp
    [GTree.mv 5 (GTree.rsp []), GTree.mv 5 (GTree.rsp []), GTree.mv 8 (GTree.rsp [GTree.mv 2
    (GTree.rsp [GTree.rsp []]), GTree.mv 0 (GTree.rsp []), GTree.mv 0 (GTree.rsp [])]),
    GTree.mv 5 (GTree.rsp []), GTree.mv 5 (GTree.rsp [])]), GTree.mv 0 (GTree.rsp [GTree.mv 8
    (GTree.rsp []), GTree.mv 8 (GTree.rsp []), GTree.mv 8 (GTree.rsp []), GTree.mv 8 (GTree.rsp
    []), GTree.mv 6 (GTree.rsp [GTree.mv 3 (GTree.rsp []), GTree.mv 2 (GTree.rsp []), GTree.mv
    2 (GTree.rsp [])])]), GTree.mv 3 (GTree.rsp [GTree.mv 5 (GTree.rsp []), GTree.mv 5
    (GTree.rsp []), GTree.mv 2 (GTree.rsp [GTree.mv 6 (GTree.rsp []), GTree.mv 7 (GTree.rsp
    [GTree.rsp []]), GTree.mv 6 (GTree.rsp [])]), GTree.mv 5 (GTree.rsp []), GTree.mv 5
    (GTree.rsp [])])])

def tOppX2 : GTree :=
  GTree.mv 4 (GTree.rsp [GTree.mv 1 (GTree.rsp [GTree.mv 7 (GTree.rsp []), GTree.mv 7
    (GTree.rsp []), GTree.mv 7 (GTree.rsp []), GTree.mv 3 (GTree.rsp [GTree.mv 8 (GTree.rsp
    [GTree.rsp []]), GTree.mv 5 (GTree.rsp []), GTree.mv 5 (GTree.rsp [])]), GTree.mv 7
    (GTree.rsp [])]), GTree.mv 0 (GTree.rsp [GTree.mv 8 (GTree.rsp []), GTree.mv 8 (GTree.rsp
    []), GTree.mv 8 (GTree.rsp []), GTree.mv 8 (GTree.rsp []), GTree.mv 5 (GTree.rsp [GTree.mv
    6 (GTree.rsp [GTree.rsp []]), GTree.mv 3 (GTree.rsp []), GTree.mv 3 (GTree.rsp [])])]),
    GTree.mv 1 (GTree.rsp [GTree.mv 7 (GTree.rsp []), GTree.mv 7 (GTree.rsp []), GTree.mv 7
    (GTree.rsp []), GTree.mv 8 (GTree.rsp [GTree.mv 6 (GTree.rsp [GTree.rsp []]), GTree.mv 0
    (GTree.rsp []), GTree.mv 0 (GTree.rsp [])]), GTree.mv 7 (GTree.rsp [])]), GTree.mv 8
    (GTree.rsp [GTree.mv 1 (GTree.rsp [GTree.mv 7 (GTree.rsp []), GTree.mv 7 (GTree.rsp []),
    GTree.mv 3 (GTree.rsp [GTree.rsp []])]), GTree.mv 0 (GTree.rsp []), GTree.mv 0 (GTree.rsp
    []), GTree.mv 0 (GTree.rsp []), GTree.mv 0 (GTree.rsp [])]), GTree.mv 1 (GTree.rsp
    [GTree.mv 7 (GTree.rsp []), GTree.mv 7 (GTree.rsp []), GTree.mv 7 (GTree.rsp []), GTree.mv
    8 (GTree.rsp [GTree.mv 3 (GTree.rsp [GTree.rsp []]), GTree.mv 0 (GTree.rsp []), GTree.mv 0
    (GTree.rsp [])]), GTree.mv 7 (GTree.rsp [])]), GTree.mv 3 (GTree.rsp [GTree.mv 5 (GTree.rsp
    []), GTree.mv 5 (GTree.rsp []), GTree.mv 8 (GTree.rsp [GTree.mv 1 (GTree.rsp [GTree.rsp
    []]), GTree.mv 0 (GTree.rsp []), GTree.mv 0 (GTree.rsp [])]), GTree.mv 5 (GTree.rsp []),
    GTree.mv 5 (GTree.rsp [])]), GTree.mv 5 (GTree.rsp [GTree.mv 3 (GTree.rsp []), GTree.mv 3
    (GTree.rsp []), GTree.mv 1 (GTree.rsp [GTree.mv 7 (GTree.rsp []), GTree.mv 7 (GTree.rsp
    []), GTree.mv 6 (GTree.rsp [GTree.rsp []])]), GTree.mv 3 (GTree.rsp []), GTree.mv 3
    (GTree.rsp [])])])

def tOppX3 : GTree :=
  GTree.mv 4 (GTree.rsp [GTree.mv 6 (GTree.rsp [GTree.mv 2 (GTree.rsp []), GTree.mv 1
    (GTree.rsp [GTree.mv 7 (GTree.rsp []), GTree.mv 5 (GTree.rsp [GTree.rsp []]), GTree.mv 7
    (GTree.rsp [])]), GTree.mv 2 (GTree.rsp []), GTree.mv 2 (GTree.rsp []), GTree.mv 2
    (GTree.rsp [])]), GTree.mv 0 (GTree.rsp [GTree.mv 8 (GTree.rsp []), GTree.mv 8 (GTree.rsp
    []), GTree.mv 8 (GTree.rsp []), GTree.mv 8 (GTree.rsp []), GTree.mv 2 (GTree.rsp [GTree.mv
    6 (GTree.rsp []), GTree.mv 7 (GTree.rsp [GTree.rsp []]), GTree.mv 6 (GTree.rsp [])])]),
    GTree.mv 1 (GTree.rsp [GTree.mv 7 (GTree.rsp []), GTree.mv 7 (GTree.rsp []), GTree.mv 7
    (GTree.rsp []), GTree.mv 8 (GTree.rsp [GTree.mv 6 (GTree.rsp [GTree.rsp []]), GTree.mv 0
    (GTree.rsp []), GTree.mv 0 (GTree.rsp [])]), GTree.mv 7 (GTree.rsp [])]), GTree.mv 0
    (GTree.rsp [GTree.mv 8 (GTree.rsp []), GTree.mv 8 (GTree.rsp []), GTree.mv 8 (GTree.rsp
    []), GTree.mv 8 (GTree.rsp []), GTree.mv 2 (GTree.rsp [GTree.mv 6 (GTree.rsp []), GTree.mv
    1 (GTree.rsp []), GTree.mv 1 (GTree.rsp [])])]), GTree.mv 0 (GTree.rsp [GTree.mv 8
    (GTree.rsp []), GTree.mv 8 (GTree.rsp []), GTree.mv 8 (GTree.rsp []), GTree.mv 8 (GTree.rsp
    []), GTree.mv 7 (GTree.rsp [GTree.mv 2 (GTree.rsp [GTree.rsp []]), GTree.mv 1 (GTree.rsp
    []), GTree.mv 1 (GTree.rsp [])])]), GTree.mv 0 (GTree.rsp [GTree.mv 8 (GTree.rsp []),
    GTree.mv 8 (GTree.rsp []), GTree.mv 8 (GTree.rsp []), GTree.mv 8 (GTree.rsp []), GTree.mv 6
    (GTree.rsp [GTree.mv 2 (GTree.rsp []), GTree.mv 5 (GTree.rsp [GTree.rsp []]), GTree.mv 2
    (GTree.rsp [])])]), GTree.mv 1 (GTree.rsp [GTree.mv 7 (GTree.rsp []), GTree.mv 7 (GTree.rsp
    []), GTree.mv 7 (GTree.rsp []), GTree.mv 7 (GTree.rsp []), GTree.mv 6 (GTree.rsp [GTree.mv
    2 (GTree.rsp []), GTree.mv 5 (GTree.rsp [GTree.rsp []]), GTree.mv 2 (GTree.rsp [])])])])

def tOppX4 : GTree :=
  GTree.mv 0 (GTree.rsp [GTree.mv 7 (GTree.rsp [GTree.mv 6 (GTree.rsp [GTree.mv 8 (GTree.rsp
    []), GTree.mv 3 (GTree.rsp []), GTree.mv 3 (GTree.rsp [])]), GTree.mv 5 (GTree.rsp
    [GTree.mv 6 (GTree.rsp [GTree.rsp []]), GTree.mv 2 (GTree.rsp [GTree.rsp []]), GTree.mv 2
    (GTree.rsp [GTree.rsp []])]), GTree.mv 3 (GTree.rsp [GTree.mv 6 (GTree.rsp []), GTree.mv 2
    (GTree.rsp [GTree.rsp []]), GTree.mv 6 (GTree.rsp [])]), GTree.mv 2 (GTree.rsp [GTree.mv 5
    (GTree.rsp [GTree.rsp []]), GTree.mv 3 (GTree.rsp [GTree.rsp []]), GTree.mv 3 (GTree.rsp
    [GTree.rsp []])]), GTree.mv 3 (GTree.rsp [GTree.mv 6 (GTree.rsp []), GTree.mv 6 (GTree.rsp
    []), GTree.mv 2 (GTree.rsp [GTree.rsp []])])]), GTree.mv 6 (GTree.rsp [GTree.mv 3
    (GTree.rsp []), GTree.mv 5 (GTree.rsp [GTree.mv 7 (GTree.rsp [GTree.rsp []]), GTree.mv 1
    (GTree.rsp [GTree.rsp []]), GTree.mv 1 (GTree.rsp [GTree.rsp []])]), GTree.mv 3 (GTree.rsp
    []), GTree.mv 3 (GTree.rsp []), GTree.mv 3 (GTree.rsp [])]), GTree.mv 5 (GTree.rsp
    [GTree.mv 7 (GTree.rsp [GTree.mv 6 (GTree.rsp [GTree.rsp []]), GTree.mv 2 (GTree.rsp
    [GTree.rsp []]), GTree.mv 2 (GTree.rsp [GTree.rsp []])]), GTree.mv 6 (GTree.rsp [GTree.mv 7
    (GTree.rsp [GTree.rsp []]), GTree.mv 1 (GTree.rsp [GTree.rsp []]), GTree.mv 1 (GTree.rsp
    [GTree.rsp []])]), GTree.mv 2 (GTree.rsp [GTree.mv 8 (GTree.rsp []), GTree.mv 1 (GTree.rsp
    []), GTree.mv 1 (GTree.rsp [])]), GTree.mv 1 (GTree.rsp [GTree.mv 6 (GTree.rsp [GTree.rsp
    []]), GTree.mv 2 (GTree.rsp []), GTree.mv 2 (GTree.rsp [])]), GTree.mv 1 (GTree.rsp
    [GTree.mv 6 (GTree.rsp [GTree.rsp []]), GTree.mv 2 (GTree.rsp []), GTree.mv 2 (GTree.rsp
    [])])]), GTree.mv 3 (GTree.rsp [GTree.mv 6 (GTree.rsp []), GTree.mv 6 (GTree.rsp []),
    GTree.mv 2 (GTree.rsp [GTree.mv 7 (GTree.rsp [GTree.rsp []]), GTree.mv 1 (GTree.rsp []),
    GTree.mv 1 (GTree.rsp [])]), GTree.mv 6 (GTree.rsp []), GTree.mv 6 (GTree.rsp [])]),
    GTree.mv 2 (GTree.rsp [GTree.mv 7 (GTree.rsp [GTree.mv 5 (GTree.rsp [GTree.rsp []]),
    GTree.mv 3 (GTree.rsp [GTree.rsp []]), GTree.mv 3 (GTree.rsp [GTree.rsp []])]), GTree.mv 1
    (GTree.rsp []), GTree.mv 1 (GTree.rsp []), GTree.mv 1 (GTree.rsp []), GTree.mv 1 (GTree.rsp
    [])]), GTree.mv 1 (GTree.rsp [GTree.mv 6 (GTree.rsp [GTree.mv 5 (GTree.rsp [GTree.rsp []]),
    GTree.mv 3 (GTree.rsp []), GTree.mv 3 (GTree.rsp [])]), GTree.mv 2 (GTree.rsp []), GTree.mv
    2 (GTree.rsp []), GTree.mv 2 (GTree.rsp []), GTree.mv 2 (GTree.rsp [])]), GTree.mv 2
    (GTree.rsp [GTree.mv 7 (GTree.rsp [GTree.mv 5 (GTree.rsp [GTree.rsp []]), GTree.mv 3
    (GTree.rsp [GTree.rsp []]), GTree.mv 3 (GTree.rsp [GTree.rsp []])]), GTree.mv 1 (GTree.rsp
    []), GTree.mv 1 (GTree.rsp []), GTree.mv 1 (GTree.rsp []), GTree.mv 1 (GTree.rsp [])])])

def tOppX5 : GTree :=
  GTree.mv 4 (GTree.rsp [GTree.mv 1 (GTree.rsp [GTree.mv 7 (GTree.rsp []), GTree.mv 7
    (GTree.rsp []), GTree.mv 7 (GTree.rsp []), GTree.mv 6 (GTree.rsp [GTree.mv 8 (GTree.rsp
    [GTree.rsp []]), GTree.mv 2 (GTree.rsp []), GTree.mv 2 (GTree.rsp [])]), GTree.mv 7
    (GTree.rsp [])]), GTree.mv 0 (GTree.rsp [GTree.mv 8 (GTree.rsp []), GTree.mv 8 (GTree.rsp
    []), GTree.mv 8 (GTree.rsp []), GTree.mv 8 (GTree.rsp []), GTree.mv 2 (GTree.rsp [GTree.mv
    6 (GTree.rsp []), GTree.mv 7 (GTree.rsp [GTree.rsp []]), GTree.mv 6 (GTree.rsp [])])]),
    GTree.mv 8 (GTree.rsp [GTree.mv 1 (GTree.rsp [GTree.mv 7 (GTree.rsp []), GTree.mv 7
    (GTree.rsp []), GTree.mv 3 (GTree.rsp [GTree.rsp []])]), GTree.mv 0 (GTree.rsp []),
    GTree.mv 0 (GTree.rsp []), GTree.mv 0 (GTree.rsp []), GTree.mv 0 (GTree.rsp [])]), GTree.mv
    0 (GTree.rsp [GTree.mv 8 (GTree.rsp []), GTree.mv 8 (GTree.rsp []), GTree.mv 8 (GTree.rsp
    []), GTree.mv 8 (GTree.rsp []), GTree.mv 2 (GTree.rsp [GTree.mv 6 (GTree.rsp []), GTree.mv
    1 (GTree.rsp []), GTree.mv 1 (GTree.rsp [])])]), GTree.mv 1 (GTree.rsp [GTree.mv 7
    (GTree.rsp []), GTree.mv 7 (GTree.rsp []), GTree.mv 7 (GTree.rsp []), GTree.mv 8 (GTree.rsp
    [GTree.mv 3 (GTree.rsp [GTree.rsp []]), GTree.mv 0 (GTree.rsp []), GTree.mv 0 (GTree.rsp
    [])]), GTree.mv 7 (GTree.rsp [])]), GTree.mv 2 (GTree.rsp [GTree.mv 6 (GTree.rsp []),
    GTree.mv 6 (GTree.rsp []), GTree.mv 6 (GTree.rsp []), GTree.mv 8 (GTree.rsp [GTree.mv 3
    (GTree.rsp [GTree.rsp []]), GTree.mv 0 (GTree.rsp []), GTree.mv 0 (GTree.rsp [])]),
    GTree.mv 6 (GTree.rsp [])]), GTree.mv 2 (GTree.rsp [GTree.mv 6 (GTree.rsp []), GTree.mv 6
    (GTree.rsp []), GTree.mv 6 (GTree.rsp []), GTree.mv 7 (GTree.rsp [GTree.mv 1 (GTree.rsp
    []), GTree.mv 0 (GTree.rsp [GTree.rsp []]), GTree.mv 1 (GTree.rsp [])]), GTree.mv 6
    (GTree.rsp [])])])

def tOppX6 : GTree :=
  GTree.mv 4 (GTree.rsp [GTree.mv 3 (GTree.rsp [GTree.mv 5 (GTree.rsp []), GTree.mv 5
    (GTree.rsp []), GTree.mv 1 (GTree.rsp [GTree.mv 7 (GTree.rsp []), GTree.mv 8 (GTree.rsp
    [GTree.rsp []]), GTree.mv 7 (GTree.rsp [])]), GTree.mv 5 (GTree.rsp []), GTree.mv 5
    (GTree.rsp [])]), GTree.mv 3 (GTree.rsp [GTree.mv 5 (GTree.rsp []), GTree.mv 5 (GTree.rsp
    []), GTree.mv 8 (GTree.rsp [GTree.mv 2 (GTree.rsp [GTree.rsp []]), GTree.mv 0 (GTree.rsp
    []), GTree.mv 0 (GTree.rsp [])]), GTree.mv 5 (GTree.rsp []), GTree.mv 5 (GTree.rsp [])]),
    GTree.mv 1 (GTree.rsp [GTree.mv 7 (GTree.rsp []), GTree.mv 7 (GTree.rsp []), GTree.mv 7
    (GTree.rsp []), GTree.mv 8 (GTree.rsp [GTree.mv 3 (GTree.rsp [GTree.rsp []]), GTree.mv 0
    (GTree.rsp []), GTree.mv 0 (GTree.rsp [])]), GTree.mv 7 (GTree.rsp [])]), GTree.mv 0
    (GTree.rsp [GTree.mv 8 (GTree.rsp []), GTree.mv 8 (GTree.rsp []), GTree.mv 8 (GTree.rsp
    []), GTree.mv 8 (GTree.rsp []), GTree.mv 7 (GTree.rsp [GTree.mv 2 (GTree.rsp [GTree.rsp
    []]), GTree.mv 1 (GTree.rsp []), GTree.mv 1 (GTree.rsp [])])]), GTree.mv 1 (GTree.rsp
    [GTree.mv 7 (GTree.rsp []), GTree.mv 7 (GTree.rsp []), GTree.mv 7 (GTree.rsp []), GTree.mv
    8 (GTree.rsp [GTree.mv 3 (GTree.rsp [GTree.rsp []]), GTree.mv 0 (GTree.rsp []), GTree.mv 0
    (GTree.rsp [])]), GTree.mv 7 (GTree.rsp [])]), GTree.mv 8 (GTree.rsp [GTree.mv 3 (GTree.rsp
    [GTree.mv 5 (GTree.rsp []), GTree.mv 5 (GTree.rsp []), GTree.mv 1 (GTree.rsp [GTree.rsp
    []])]), GTree.mv 0 (GTree.rsp []), GTree.mv 0 (GTree.rsp []), GTree.mv 0 (GTree.rsp []),
    GTree.mv 0 (GTree.rsp [])]), GTree.mv 7 (GTree.rsp [GTree.mv 1 (GTree.rsp []), GTree.mv 3
    (GTree.rsp [GTree.mv 5 (GTree.rsp []), GTree.mv 5 (GTree.rsp []), GTree.mv 2 (GTree.rsp
    [GTree.rsp []])]), GTree.mv 1 (GTree.rsp []), GTree.mv 1 (GTree.rsp []), GTree.mv 1
    (GTree.rsp [])])])

def tOppX7 : GTree :=
  GTree.mv 4 (GTree.rsp [GTree.mv 3 (GTree.rsp [GTree.mv 5 (GTree.rsp []), GTree.mv 5
    (GTree.rsp []), GTree.mv 2 (GTree.rsp [GTree.mv 6 (GTree.rsp []), GTree.mv 8 (GTree.rsp
    [GTree.rsp []]), GTree.mv 6 (GTree.rsp [])]), GTree.mv 5 (GTree.rsp []), GTree.mv 5
    (GTree.rsp [])]), GTree.mv 0 (GTree.rsp [GTree.mv 8 (GTree.rsp []), GTree.mv 8 (GTree.rsp
    []), GTree.mv 8 (GTree.rsp []), GTree.mv 8 (GTree.rsp []), GTree.mv 6 (GTree.rsp [GTree.mv
    3 (GTree.rsp []), GTree.mv 2 (GTree.rsp []), GTree.mv 2 (GTree.rsp [])])]), GTree.mv 3
    (GTree.rsp [GTree.mv 5 (GTree.rsp []), GTree.mv 5 (GTree.rsp []), GTree.mv 8 (GTree.rsp
    [GTree.mv 1 (GTree.rsp [GTree.rsp []]), GTree.mv 0 (GTree.rsp []), GTree.mv 0 (GTree.rsp
    [])]), GTree.mv 5 (GTree.rsp []), GTree.mv 5 (GTree.rsp [])]), GTree.mv 0 (GTree.rsp
    [GTree.mv 8 (GTree.rsp []), GTree.mv 8 (GTree.rsp []), GTree.mv 8 (GTree.rsp []), GTree.mv
    8 (GTree.rsp []), GTree.mv 6 (GTree.rsp [GTree.mv 2 (GTree.rsp []), GTree.mv 5 (GTree.rsp
    [GTree.rsp []]), GTree.mv 2 (GTree.rsp [])])]), GTree.mv 2 (GTree.rsp [GTree.mv 6
    (GTree.rsp []), GTree.mv 6 (GTree.rsp []), GTree.mv 6 (GTree.rsp []), GTree.mv 8 (GTree.rsp
    [GTree.mv 3 (GTree.rsp [GTree.rsp []]), GTree.mv 0 (GTree.rsp []), GTree.mv 0 (GTree.rsp
    [])]), GTree.mv 6 (GTree.rsp [])]), GTree.mv 8 (GTree.rsp [GTree.mv 3 (GTree.rsp [GTree.mv
    5 (GTree.rsp []), GTree.mv 5 (GTree.rsp []), GTree.mv 1 (GTree.rsp [GTree.rsp []])]),
    GTree.mv 0 (GTree.rsp []), GTree.mv 0 (GTree.rsp []), GTree.mv 0 (GTree.rsp []), GTree.mv 0
    (GTree.rsp [])]), GTree.mv 6 (GTree.rsp [GTree.mv 2 (GTree.rsp []), GTree.mv 2 (GTree.rsp
    []), GTree.mv 5 (GTree.rsp [GTree.mv 3 (GTree.rsp []), GTree.mv 3 (GTree.rsp []), GTree.mv
    0 (GTree.rsp [GTree.rsp []])]), GTree.mv 2 (GTree.rsp []), GTree.mv 2 (GTree.rsp [])])])

def tOppX8 : GTree :=
  GTree.mv 4 (GTree.rsp [GTree.mv 1 (GTree.rsp [GTree.mv 7 (GTree.rsp []), GTree.mv 7
    (GTree.rsp []), GTree.mv 7 (GTree.rsp []), GTree.mv 7 (GTree.rsp []), GTree.mv 6 (GTree.rsp
    [GTree.mv 5 (GTree.rsp [GTree.rsp []]), GTree.mv 2 (GTree.rsp []), GTree.mv 2 (GTree.rsp
    [])])]), GTree.mv 3 (GTree.rsp [GTree.mv 5 (GTree.rsp []), GTree.mv 5 (GTree.rsp []),
    GTree.mv 2 (GTree.rsp [GTree.mv 6 (GTree.rsp []), GTree.mv 7 (GTree.rsp [GTree.rsp []]),
    GTree.mv 6 (GTree.rsp [])]), GTree.mv 5 (GTree.rsp []), GTree.mv 5 (GTree.rsp [])]),
    GTree.mv 5 (GTree.rsp [GTree.mv 3 (GTree.rsp []), GTree.mv 3 (GTree.rsp []), GTree.mv 1
    (GTree.rsp [GTree.mv 7 (GTree.rsp []), GTree.mv 7 (GTree.rsp []), GTree.mv 6 (GTree.rsp
    [GTree.rsp []])]), GTree.mv 3 (GTree.rsp []), GTree.mv 3 (GTree.rsp [])]), GTree.mv 1
    (GTree.rsp [GTree.mv 7 (GTree.rsp []), GTree.mv 7 (GTree.rsp []), GTree.mv 7 (GTree.rsp
    []), GTree.mv 7 (GTree.rsp []), GTree.mv 6 (GTree.rsp [GTree.mv 2 (GTree.rsp []), GTree.mv
    5 (GTree.rsp [GTree.rsp []]), GTree.mv 2 (GTree.rsp [])])]), GTree.mv 2 (GTree.rsp
    [GTree.mv 6 (GTree.rsp []), GTree.mv 6 (GTree.rsp []), GTree.mv 6 (GTree.rsp []), GTree.mv
    7 (GTree.rsp [GTree.mv 1 (GTree.rsp []), GTree.mv 0 (GTree.rsp [GTree.rsp []]), GTree.mv 1
    (GTree.rsp [])]), GTree.mv 6 (GTree.rsp [])]), GTree.mv 7 (GTree.rsp [GTree.mv 1 (GTree.rsp
    []), GTree.mv 3 (GTree.rsp [GTree.mv 5 (GTree.rsp []), GTree.mv 5 (GTree.rsp []), GTree.mv
    2 (GTree.rsp [GTree.rsp []])]), GTree.mv 1 (GTree.rsp []), GTree.mv 1 (GTree.rsp []),
    GTree.mv 1 (GTree.rsp [])]), GTree.mv 6 (GTree.rsp [GTree.mv 2 (GTree.rsp []), GTree.mv 2
    (GTree.rsp []), GTree.mv 5 (GTree.rsp [GTree.mv 3 (GTree.rsp []), GTree.mv 3 (GTree.rsp
    []), GTree.mv 0 (GTree.rsp [GTree.rsp []])]), GTree.mv 2 (GTree.rsp []), GTree.mv 2
    (GTree.rsp [])])])

def tSelfX0 : GTree :=
  GTree.rsp [GTree.mv 3 (GTree.rsp [GTree.mv 6 (GTree.rsp []), GTree.mv 6 (GTree.rsp []),
    GTree.mv 6 (GTree.rsp []), GTree.mv 4 (GTree.rsp [GTree.mv 5 (GTree.rsp []), GTree.mv 8
    (GTree.rsp []), GTree.mv 5 (GTree.rsp []), GTree.mv 5 (GTree.rsp [])]), GTree.mv 6
    (GTree.rsp []), GTree.mv 6 (GTree.rsp [])]), GTree.mv 3 (GTree.rsp [GTree.mv 6 (GTree.rsp
    []), GTree.mv 6 (GTree.rsp []), GTree.mv 6 (GTree.rsp []), GTree.mv 4 (GTree.rsp [GTree.mv
    5 (GTree.rsp []), GTree.mv 8 (GTree.rsp []), GTree.mv 5 (GTree.rsp []), GTree.mv 5
    (GTree.rsp [])]), GTree.mv 6 (GTree.rsp []), GTree.mv 6 (GTree.rsp [])]), GTree.mv 1
    (GTree.rsp [GTree.mv 4 (GTree.rsp [GTree.mv 7 (GTree.rsp []), GTree.mv 7 (GTree.rsp []),
    GTree.mv 8 (GTree.rsp []), GTree.mv 7 (GTree.rsp [])]), GTree.mv 2 (GTree.rsp []), GTree.mv
    2 (GTree.rsp []), GTree.mv 2 (GTree.rsp []), GTree.mv 2 (GTree.rsp []), GTree.mv 2
    (GTree.rsp [])]), GTree.mv 1 (GTree.rsp [GTree.mv 6 (GTree.rsp [GTree.mv 5 (GTree.rsp
    [GTree.mv 8 (GTree.rsp []), GTree.mv 7 (GTree.rsp [])]), GTree.mv 3 (GTree.rsp []),
    GTree.mv 3 (GTree.rsp []), GTree.mv 3 (GTree.rsp [])]), GTree.mv 2 (GTree.rsp []), GTree.mv
    2 (GTree.rsp []), GTree.mv 2 (GTree.rsp []), GTree.mv 2 (GTree.rsp []), GTree.mv 2
    (GTree.rsp [])]), GTree.mv 2 (GTree.rsp [GTree.mv 4 (GTree.rsp [GTree.mv 6 (GTree.rsp []),
    GTree.mv 8 (GTree.rsp []), GTree.mv 6 (GTree.rsp []), GTree.mv 6 (GTree.rsp [])]), GTree.mv
    1 (GTree.rsp []), GTree.mv 1 (GTree.rsp []), GTree.mv 1 (GTree.rsp []), GTree.mv 1
    (GTree.rsp []), GTree.mv 1 (GTree.rsp [])]), GTree.mv 1 (GTree.rsp [GTree.mv 4 (GTree.rsp
    [GTree.mv 7 (GTree.rsp []), GTree.mv 7 (GTree.rsp []), GTree.mv 8 (GTree.rsp []), GTree.mv
    7 (GTree.rsp [])]), GTree.mv 2 (GTree.rsp []), GTree.mv 2 (GTree.rsp []), GTree.mv 2
    (GTree.rsp []), GTree.mv 2 (GTree.rsp []), GTree.mv 2 (GTree.rsp [])]), GTree.mv 2
    (GTree.rsp [GTree.mv 4 (GTree.rsp [GTree.mv 6 (GTree.rsp []), GTree.mv 6 (GTree.rsp []),
    GTree.mv 8 (GTree.rsp []), GTree.mv 6 (GTree.rsp [])]), GTree.mv 1 (GTree.rsp []), GTree.mv
    1 (GTree.rsp []), GTree.mv 1 (GTree.rsp []), GTree.mv 1 (GTree.rsp []), GTree.mv 1
    (GTree.rsp [])]), GTree.mv 2 (GTree.rsp [GTree.mv 6 (GTree.rsp [GTree.mv 4 (GTree.rsp []),
    GTree.mv 3 (GTree.rsp []), GTree.mv 3 (GTree.rsp []), GTree.mv 3 (GTree.rsp [])]), GTree.mv
    1 (GTree.rsp []), GTree.mv 1 (GTree.rsp []), GTree.mv 1 (GTree.rsp []), GTree.mv 1
    (GTree.rsp []), GTree.mv 1 (GTree.rsp [])])]

def tOppO0 : GTree :=
  GTree.mv 4 (GTree.rsp [GTree.mv 2 (GTree.rsp [GTree.mv 6 (GTree.rsp []), GTree.mv 6
    (GTree.rsp []), GTree.mv 3 (GTree.rsp [GTree.mv 7 (GTree.rsp [GTree.rsp []]), GTree.mv 5
    (GTree.rsp []), GTree.mv 5 (GTree.rsp [])]), GTree.mv 6 (GTree.rsp []), GTree.mv 6
    (GTree.rsp [])]), GTree.mv 1 (GTree.rsp [GTree.mv 7 (GTree.rsp []), GTree.mv 7 (GTree.rsp
    []), GTree.mv 7 (GTree.rsp []), GTree.mv 3 (GTree.rsp [GTree.mv 8 (GTree.rsp [GTree.rsp
    []]), GTree.mv 5 (GTree.rsp []), GTree.mv 5 (GTree.rsp [])]), GTree.mv 7 (GTree.rsp [])]),
    GTree.mv 6 (GTree.rsp [GTree.mv 2 (GTree.rsp []), GTree.mv 1 (GTree.rsp [GTree.mv 7
    (GTree.rsp []), GTree.mv 5 (GTree.rsp [GTree.rsp []]), GTree.mv 7 (GTree.rsp [])]),
    GTree.mv 2 (GTree.rsp []), GTree.mv 2 (GTree.rsp []), GTree.mv 2 (GTree.rsp [])]), GTree.mv
    1 (GTree.rsp [GTree.mv 7 (GTree.rsp []), GTree.mv 7 (GTree.rsp []), GTree.mv 7 (GTree.rsp
    []), GTree.mv 6 (GTree.rsp [GTree.mv 8 (GTree.rsp [GTree.rsp []]), GTree.mv 2 (GTree.rsp
    []), GTree.mv 2 (GTree.rsp [])]), GTree.mv 7 (GTree.rsp [])]), GTree.mv 3 (GTree.rsp
    [GTree.mv 5 (GTree.rsp []), GTree.mv 5 (GTree.rsp []), GTree.mv 1 (GTree.rsp [GTree.mv 7
    (GTree.rsp []), GTree.mv 8 (GTree.rsp [GTree.rsp []]), GTree.mv 7 (GTree.rsp [])]),
    GTree.mv 5 (GTree.rsp []), GTree.mv 5 (GTree.rsp [])]), GTree.mv 3 (GTree.rsp [GTree.mv 5
    (GTree.rsp []), GTree.mv 5 (GTree.rsp []), GTree.mv 2 (GTree.rsp [GTree.mv 6 (GTree.rsp
    []), GTree.mv 8 (GTree.rsp [GTree.rsp []]), GTree.mv 6 (GTree.rsp [])]), GTree.mv 5
    (GTree.rsp []), GTree.mv 5 (GTree.rsp [])]), GTree.mv 1 (GTree.rsp [GTree.mv 7 (GTree.rsp
    []), GTree.mv 7 (GTree.rsp []), GTree.mv 7 (GTree.rsp []), GTree.mv 7 (GTree.rsp []),
    GTree.mv 6 (GTree.rsp [GTree.mv 5 (GTree.rsp [GTree.rsp []]), GTree.mv 2 (GTree.rsp []),
    GTree.mv 2 (GTree.rsp [])])])])

def tOppO1 : GTree :=
  GTree.mv 4 (GTree.rsp [GTree.mv 2 (GTree.rsp [GTree.mv 6 (GTree.rsp []), GTree.mv 6
    (GTree.rsp []), GTree.mv 3 (GTree.rsp [GTree.mv 7 (GTree.rsp [GTree.rsp []]), GTree.mv 5
    (GTree.rsp []), GTree.mv 5 (GTree.rsp [])]), GTree.mv 6 (GTree.rsp []), GTree.mv 6
    (GTree.rsp [])]), GTree.mv 0 (GTree.rsp [GTree.mv 8 (GTree.rsp []), GTree.mv 8 (GTree.rsp
    []), GTree.mv 8 (GTree.rsp []), GTree.mv 8 (GTree.rsp []), GTree.mv 5 (GTree.rsp [GTree.mv
    6 (GTree.rsp [GTree.rsp []]), GTree.mv 3 (GTree.rsp []), GTree.mv 3 (GTree.rsp [])])]),
    GTree.mv 0 (GTree.rsp [GTree.mv 8 (GTree.rsp []), GTree.mv 8 (GTree.rsp []), GTree.mv 8
    (GTree.rsp []), GTree.mv 8 (GTree.rsp []), GTree.mv 2 (GTree.rsp [GTree.mv 6 (GTree.rsp
    []), GTree.mv 7 (GTree.rsp [GTree.rsp []]), GTree.mv 6 (GTree.rsp [])])]), GTree.mv 0
    (GTree.rsp [GTree.mv 8 (GTree.rsp []), GTree.mv 8 (GTree.rsp []), GTree.mv 8 (GTree.rsp
    []), GTree.mv 8 (GTree.rsp []), GTree.mv 2 (GTree.rsp [GTree.mv 6 (GTree.rsp []), GTree.mv
    7 (GTree.rsp [GTree.rsp []]), GTree.mv 6 (GTree.rsp [])])]), GTree.mv 3 (GTree.rsp
    [GTree.mv 5 (GTree.rsp []), GTree.mv 5 (GTree.rsp []), GTree.mv 8 (GTree.rsp [GTree.mv 2
    (GTree.rsp [GTree.rsp []]), GTree.mv 0 (GTree.rsp []), GTree.mv 0 (GTree.rsp [])]),
    GTree.mv 5 (GTree.rsp []), GTree.mv 5 (GTree.rsp [])]), GTree.mv 0 (GTree.rsp [GTree.mv 8
    (GTree.rsp []), GTree.mv 8 (GTree.rsp []), GTree.mv 8 (GTree.rsp []), GTree.mv 8 (GTree.rsp
    []), GTree.mv 6 (GTree.rsp [GTree.mv 3 (GTree.rsp []), GTree.mv 2 (GTree.rsp []), GTree.mv
    2 (GTree.rsp [])])]), GTree.mv 3 (GTree.rsp [GTree.mv 5 (GTree.rsp []), GTree.mv 5
    (GTree.rsp []), GTree.mv 2 (GTree.rsp [GTree.mv 6 (GTree.rsp []), GTree.mv 7 (GTree.rsp
    [GTree.rsp []]), GTree.mv 6 (GTree.rsp [])]), GTree.mv 5 (GTree.rsp []), GTree.mv 5
    (GTree.rsp [])])])

def tOppO2 : GTree :=
  GTree.mv 4 (GTree.rsp [GTree.mv 1 (GTree.rsp [GTree.mv 7 (GTree.rsp []), GTree.mv 7
    (GTree.rsp []), GTree.mv 7 (GTree.rsp []), GTree.mv 3 (GTree.rsp [GTree.mv 8 (GTree.rsp
    [GTree.rsp []]), GTree.mv 5 (GTree.rsp []), GTree.mv 5 (GTree.rsp [])]), GTree.mv 7
    (GTree.rsp [])]), GTree.mv 0 (GTree.rsp [GTree.mv 8 (GTree.rsp []), GTree.mv 8 (GTree.rsp
    []), GTree.mv 8 (GTree.rsp []), GTree.mv 8 (GTree.rsp []), GTree.mv 5 (GTree.rsp [GTree.mv
    6 (GTree.rsp [GTree.rsp []]), GTree.mv 3 (GTree.rsp []), GTree.mv 3 (GTree.rsp [])])]),
    GTree.mv 1 (GTree.rsp [GTree.mv 7 (GTree.rsp []), GTree.mv 7 (GTree.rsp []), GTree.mv 7
    (GTree.rsp []), GTree.mv 8 (GTree.rsp [GTree.mv 6 (GTree.rsp [GTree.rsp []]), GTree.mv 0
    (GTree.rsp []), GTree.mv 0 (GTree.rsp [])]), GTree.mv 7 (GTree.rsp [])]), GTree.mv 8
    (GTree.rsp [GTree.mv 1 (GTree.rsp [GTree.mv 7 (GTree.rsp []), GTree.mv 7 (GTree.rsp []),
    GTree.mv 3 (GTree.rsp [GTree.rsp []])]), GTree.mv 0 (GTree.rsp []), GTree.mv 0 (GTree.rsp
    []), GTree.mv 0 (GTree.rsp []), GTree.mv 0 (GTree.rsp [])]), GTree.mv 1 (GTree.rsp
    [GTree.mv 7 (GTree.rsp []), GTree.mv 7 (GTree.rsp []), GTree.mv 7 (GTree.rsp []), GTree.mv
    8 (GTree.rsp [GTree.mv 3 (GTree.rsp [GTree.rsp []]), GTree.mv 0 (GTree.rsp []), GTree.mv 0
    (GTree.rsp [])]), GTree.mv 7 (GTree.rsp [])]), GTree.mv 3 (GTree.rsp [GTree.mv 5 (GTree.rsp
    []), GTree.mv 5 (GTree.rsp []), GTree.mv 8 (GTree.rsp [GTree.mv 1 (GTree.rsp [GTree.rsp
    []]), GTree.mv 0 (GTree.rsp []), GTree.mv 0 (GTree.rsp [])]), GTree.mv 5 (GTree.rsp []),
    GTree.mv 5 (GTree.rsp [])]), GTree.mv 5 (GTree.rsp [GTree.mv 3 (GTree.rsp []), GTree.mv 3
    (GTree.rsp []), GTree.mv 1 (GTree.rsp [GTree.mv 7 (GTree.rsp []), GTree.mv 7 (GTree.rsp
    []), GTree.mv 6 (GTree.rsp [GTree.rsp []])]), GTree.mv 3 (GTree.rsp []), GTree.mv 3
    (GTree.rsp [])])])

def tOppO3 : GTree :=
  GTree.mv 4 (GTree.rsp [GTree.mv 6 (GTree.rsp [GTree.mv 2 (GTree.rsp []), GTree.mv 1
    (GTree.rsp [GTree.mv 7 (GTree.rsp []), GTree.mv 5 (GTree.rsp [GTree.rsp []]), GTree.mv 7
    (GTree.rsp [])]), GTree.mv 2 (GTree.rsp []), GTree.mv 2 (GTree.rsp []), GTree.mv 2
    (GTree.rsp [])]), GTree.mv 0 (GTree.rsp [GTree.mv 8 (GTree.rsp []), GTree.mv 8 (GTree.rsp
    []), GTree.mv 8 (GTree.rsp []), GTree.mv 8 (GTree.rsp []), GTree.mv 2 (GTree.rsp [GTree.mv
    6 (GTree.rsp []), GTree.mv 7 (GTree.rsp [GTree.rsp []]), GTree.mv 6 (GTree.rsp [])])]),
    GTree.mv 1 (GTree.rsp [GTree.mv 7 (GTree.rsp []), GTree.mv 7 (GTree.rsp []), GTree.mv 7
    (GTree.rsp []), GTree.mv 8 (GTree.rsp [GTree.mv 6 (GTree.rsp [GTree.rsp []]), GTree.mv 0
    (GTree.rsp []), GTree.mv 0 (GTree.rsp [])]), GTree.mv 7 (GTree.rsp [])]), GTree.mv 0
    (GTree.rsp [GTree.mv 8 (GTree.rsp []), GTree.mv 8 (GTree.rsp []), GTree.mv 8 (GTree.rsp
    []), GTree.mv 8 (GTree.rsp []), GTree.mv 2 (GTree.rsp [GTree.mv 6 (GTree.rsp []), GTree.mv
    1 (GTree.rsp []), GTree.mv 1 (GTree.rsp [])])]), GTree.mv 0 (GTree.rsp [GTree.mv 8
    (GTree.rsp []), GTree.mv 8 (GTree.rsp []), GTree.mv 8 (GTree.rsp []), GTree.mv 8 (GTree.rsp
    []), GTree.mv 7 (GTree.rsp [GTree.mv 2 (GTree.rsp [GTree.rsp []]), GTree.mv 1 (GTree.rsp
    []), GTree.mv 1 (GTree.rsp [])])]), GTree.mv 0 (GTree.rsp [GTree.mv 8 (GTree.rsp []),
    GTree.mv 8 (GTree.rsp []), GTree.mv 8 (GTree.rsp []), GTree.mv 8 (GTree.rsp []), GTree.mv 6
    (GTree.rsp [GTree.mv 2 (GTree.rsp []), GTree.mv 5 (GTree.rsp [GTree.rsp []]), GTree.mv 2
    (GTree.rsp [])])]), GTree.mv 1 (GTree.rsp [GTree.mv 7 (GTree.rsp []), GTree.mv 7 (GTree.rsp
    []), GTree.mv 7 (GTree.rsp []), GTree.mv 7 (GTree.rsp []), GTree.mv 6 (GTree.rsp [GTree.mv
    2 (GTree.rsp []), GTree.mv 5 (GTree.rsp [GTree.rsp []]), GTree.mv 2 (GTree.rsp [])])])])

def tOppO4 : GTree :=
  GTree.mv 0 (GTree.rsp [GTree.mv 7 (GTree.rsp [GTree.mv 6 (GTree.rsp [GTree.mv 8 (GTree.rsp
    []), GTree.mv 3 (GTree.rsp []), GTree.mv 3 (GTree.rsp [])]), GTree.mv 5 (GTree.rsp
    [GTree.mv 6 (GTree.rsp [GTree.rsp []]), GTree.mv 2 (GTree.rsp [GTree.rsp []]), GTree.mv 2
    (GTree.rsp [GTree.rsp []])]), GTree.mv 3 (GTree.rsp [GTree.mv 6 (GTree.rsp []), GTree.mv 2
    (GTree.rsp [GTree.rsp []]), GTree.mv 6 (GTree.rsp [])]), GTree.mv 2 (GTree.rsp [GTree.mv 5
    (GTree.rsp [GTree.rsp []]), GTree.mv 3 (GTree.rsp [GTree.rsp []]), GTree.mv 3 (GTree.rsp
    [GTree.rsp []])]), GTree.mv 3 (GTree.rsp [GTree.mv 6 (GTree.rsp []), GTree.mv 6 (GTree.rsp
    []), GTree.mv 2 (GTree.rsp [GTree.rsp []])])]), GTree.mv 6 (GTree.rsp [GTree.mv 3
    (GTree.rsp []), GTree.mv 5 (GTree.rsp [GTree.mv 7 (GTree.rsp [GTree.rsp []]), GTree.mv 1
    (GTree.rsp [GTree.rsp []]), GTree.mv 1 (GTree.rsp [GTree.rsp []])]), GTree.mv 3 (GTree.rsp
    []), GTree.mv 3 (GTree.rsp []), GTree.mv 3 (GTree.rsp [])]), GTree.mv 5 (GTree.rsp
    [GTree.mv 7 (GTree.rsp [GTree.mv 6 (GTree.rsp [GTree.rsp []]), GTree.mv 2 (GTree.rsp
    [GTree.rsp []]), GTree.mv 2 (GTree.rsp [GTree.rsp []])]), GTree.mv 6 (GTree.rsp [GTree.mv 7
    (GTree.rsp [GTree.rsp []]), GTree.mv 1 (GTree.rsp [GTree.rsp []]), GTree.mv 1 (GTree.rsp
    [GTree.rsp []])]), GTree.mv 2 (GTree.rsp [GTree.mv 8 (GTree.rsp []), GTree.mv 1 (GTree.rsp
    []), GTree.mv 1 (GTree.rsp [])]), GTree.mv 1 (GTree.rsp [GTree.mv 6 (GTree.rsp [GTree.rsp
    []]), GTree.mv 2 (GTree.rsp []), GTree.mv 2 (GTree.rsp [])]), GTree.mv 1 (GTree.rsp
    [GTree.mv 6 (GTree.rsp [GTree.rsp []]), GTree.mv 2 (GTree.rsp []), GTree.mv 2 (GTree.rsp
    [])])]), GTree.mv 3 (GTree.rsp [GTree.mv 6 (GTree.rsp []), GTree.mv 6 (GTree.rsp []),
    GTree.mv 2 (GTree.rsp [GTree.mv 7 (GTree.rsp [GTree.rsp []]), GTree.mv 1 (GTree.rsp []),
    GTree.mv 1 (GTree.rsp [])]), GTree.mv 6 (GTree.rsp []), GTree.mv 6 (GTree.rsp [])]),
    GTree.mv 2 (GTree.rsp [GTree.mv 7 (GTree.rsp [GTree.mv 5 (GTree.rsp [GTree.rsp []]),
    GTree.mv 3 (GTree.rsp [GTree.rsp []]), GTree.mv 3 (GTree.rsp [GTree.rsp []])]), GTree.mv 1
    (GTree.rsp []), GTree.mv 1 (GTree.rsp []), GTree.mv 1 (GTree.rsp []), GTree.mv 1 (GTree.rsp
    [])]), GTree.mv 1 (GTree.rsp [GTree.mv 6 (GTree.rsp [GTree.mv 5 (GTree.rsp [GTree.rsp []]),
    GTree.mv 3 (GTree.rsp []), GTree.mv 3 (GTree.rsp [])]), GTree.mv 2 (GTree.rsp []), GTree.mv
    2 (GTree.rsp []), GTree.mv 2 (GTree.rsp []), GTree.mv 2 (GTree.rsp [])]), GTree.mv 2
    (GTree.rsp [GTree.mv 7 (GTree.rsp [GTree.mv 5 (GTree.rsp [GTree.rsp []]), GTree.mv 3
    (GTree.rsp [GTree.rsp []]), GTree.mv 3 (GTree.rsp [GTree.rsp []])]), GTree.mv 1 (GTree.rsp
    []), GTree.mv 1 (GTree.rsp []), GTree.mv 1 (GTree.rsp []), GTree.mv 1 (GTree.rsp [])])])

def tOppO5 : GTree :=
  GTree.mv 4 (GTree.rsp [GTree.mv 1 (GTree.rsp [GTree.mv 7 (GTree.rsp []), GTree.mv 7
    (GTree.rsp []), GTree.mv 7 (GTree.rsp []), GTree.mv 6 (GTree.rsp [GTree.mv 8 (GTree.rsp
    [GTree.rsp []]), GTree.mv 2 (GTree.rsp []), GTree.mv 2 (GTree.rsp [])]), GTree.mv 7
    (GTree.rsp [])]), GTree.mv 0 (GTree.rsp [GTree.mv 8 (GTree.rsp []), GTree.mv 8 (GTree.rsp
    []), GTree.mv 8 (GTree.rsp []), GTree.mv 8 (GTree.rsp []), GTree.mv 2 (GTree.rsp [GTree.mv
    6 (GTree.rsp []), GTree.mv 7 (GTree.rsp [GTree.rsp []]), GTree.mv 6 (GTree.rsp [])])]),
    GTree.mv 8 (GTree.rsp [GTree.mv 1 (GTree.rsp [GTree.mv 7 (GTree.rsp []), GTree.mv 7
    (GTree.rsp []), GTree.mv 3 (GTree.rsp [GTree.rsp []])]), GTree.mv 0 (GTree.rsp []),
    GTree.mv 0 (GTree.rsp []), GTree.mv 0 (GTree.rsp []), GTree.mv 0 (GTree.rsp [])]), GTree.mv
    0 (GTree.rsp [GTree.mv 8 (GTree.rsp []), GTree.mv 8 (GTree.rsp []), GTree.mv 8 (GTree.rsp
    []), GTree.mv 8 (GTree.rsp []), GTree.mv 2 (GTree.rsp [GTree.mv 6 (GTree.rsp []), GTree.mv
    1 (GTree.rsp []), GTree.mv 1 (GTree.rsp [])])]), GTree.mv 1 (GTree.rsp [GTree.mv 7
    (GTree.rsp []), GTree.mv 7 (GTree.rsp []), GTree.mv 7 (GTree.rsp []), GTree.mv 8 (GTree.rsp
    [GTree.mv 3 (GTree.rsp [GTree.rsp []]), GTree.mv 0 (GTree.rsp []), GTree.mv 0 (GTree.rsp
    [])]), GTree.mv 7 (GTree.rsp [])]), GTree.mv 2 (GTree.rsp [GTree.mv 6 (GTree.rsp []),
    GTree.mv 6 (GTree.rsp []), GTree.mv 6 (GTree.rsp []), GTree.mv 8 (GTree.rsp [GTree.mv 3
    (GTree.rsp [GTree.rsp []]), GTree.mv 0 (GTree.rsp []), GTree.mv 0 (GTree.rsp [])]),
    GTree.mv 6 (GTree.rsp [])]), GTree.mv 2 (GTree.rsp [GTree.mv 6 (GTree.rsp []), GTree.mv 6
    (GTree.rsp []), GTree.mv 6 (GTree.rsp []), GTree.mv 7 (GTree.rsp [GTree.mv 1 (GTree.rsp
    []), GTree.mv 0 (GTree.rsp [GTree.rsp []]), GTree.mv 1 (GTree.rsp [])]), GTree.mv 6
    (GTree.rsp [])])])

def tOppO6 : GTree :=
  GTree.mv 4 (GTree.rsp [GTree.mv 3 (GTree.rsp [GTree.mv 5 (GTree.rsp []), GTree.mv 5
    (GTree.rsp []), GTree.mv 1 (GTree.rsp [GTree.mv 7 (GTree.rsp []), GTree.mv 8 (GTree.rsp
    [GTree.rsp []]), GTree.mv 7 (GTree.rsp [])]), GTree.mv 5 (GTree.rsp []), GTree.mv 5
    (GTree.rsp [])]), GTree.mv 3 (GTree.rsp [GTree.mv 5 (GTree.rsp []), GTree.mv 5 (GTree.rsp
    []), GTree.mv 8 (GTree.rsp [GTree.mv 2 (GTree.rsp [GTree.rsp []]), GTree.mv 0 (GTree.rsp
    []), GTree.mv 0 (GTree.rsp [])]), GTree.mv 5 (GTree.rsp []), GTree.mv 5 (GTree.rsp [])]),
    GTree.mv 1 (GTree.rsp [GTree.mv 7 (GTree.rsp []), GTree.mv 7 (GTree.rsp []), GTree.mv 7
    (GTree.rsp []), GTree.mv 8 (GTree.rsp [GTree.mv 3 (GTree.rsp [GTree.rsp []]), GTree.mv 0
    (GTree.rsp []), GTree.mv 0 (GTree.rsp [])]), GTree.mv 7 (GTree.rsp [])]), GTree.mv 0
    (GTree.rsp [GTree.mv 8 (GTree.rsp []), GTree.mv 8 (GTree.rsp []), GTree.mv 8 (GTree.rsp
    []), GTree.mv 8 (GTree.rsp []), GTree.mv 7 (GTree.rsp [GTree.mv 2 (GTree.rsp [GTree.rsp
    []]), GTree.mv 1 (GTree.rsp []), GTree.mv 1 (GTree.rsp [])])]), GTree.mv 1 (GTree.rsp
    [GTree.mv 7 (GTree.rsp []), GTree.mv 7 (GTree.rsp []), GTree.mv 7 (GTree.rsp []), GTree.mv
    8 (GTree.rsp [GTree.mv 3 (GTree.rsp [GTree.rsp []]), GTree.mv 0 (GTree.rsp []), GTree.mv 0
    (GTree.rsp [])]), GTree.mv 7 (GTree.rsp [])]), GTree.mv 8 (GTree.rsp [GTree.mv 3 (GTree.rsp
    [GTree.mv 5 (GTree.rsp []), GTree.mv 5 (GTree.rsp []), GTree.mv 1 (GTree.rsp [GTree.rsp
    []])]), GTree.mv 0 (GTree.rsp []), GTree.mv 0 (GTree.rsp []), GTree.mv 0 (GTree.rsp []),
    GTree.mv 0 (GTree.rsp [])]), GTree.mv 7 (GTree.rsp [GTree.mv 1 (GTree.rsp []), GTree.mv 3
    (GTree.rsp [GTree.mv 5 (GTree.rsp []), GTree.mv 5 (GTree.rsp []), GTree.mv 2 (GTree.rsp
    [GTree.rsp []])]), GTree.mv 1 (GTree.rsp []), GTree.mv 1 (GTree.rsp []), GTree.mv 1
    (GTree.rsp [])])])

def tOppO7 : GTree :=
  GTree.mv 4 (GTree.rsp [GTree.mv 3 (GTree.rsp [GTree.mv 5 (GTree.rsp []), GTree.mv 5
    (GTree.rsp []), GTree.mv 2 (GTree.rsp [GTree.mv 6 (GTree.rsp []), GTree.mv 8 (GTree.rsp
    [GTree.rsp []]), GTree.mv 6 (GTree.rsp [])]), GTree.mv 5 (GTree.rsp []), GTree.mv 5
    (GTree.rsp [])]), GTree.mv 0 (GTree.rsp [GTree.mv 8 (GTree.rsp []), GTree.mv 8 (GTree.rsp
    []), GTree.mv 8 (GTree.rsp []), GTree.mv 8 (GTree.rsp []), GTree.mv 6 (GTree.rsp [GTree.mv
    3 (GTree.rsp []), GTree.mv 2 (GTree.rsp []), GTree.mv 2 (GTree.rsp [])])]), GTree.mv 3
    (GTree.rsp [GTree.mv 5 (GTree.rsp []), GTree.mv 5 (GTree.rsp []), GTree.mv 8 (GTree.rsp
    [GTree.mv 1 (GTree.rsp [GTree.rsp []]), GTree.mv 0 (GTree.rsp []), GTree.mv 0 (GTree.rsp
    [])]), GTree.mv 5 (GTree.rsp []), GTree.mv 5 (GTree.rsp [])]), GTree.mv 0 (GTree.rsp
    [GTree.mv 8 (GTree.rsp []), GTree.mv 8 (GTree.rsp []), GTree.mv 8 (GTree.rsp []), GTree.mv
    8 (GTree.rsp []), GTree.mv 6 (GTree.rsp [GTree.mv 2 (GTree.rsp []), GTree.mv 5 (GTree.rsp
    [GTree.rsp []]), GTree.mv 2 (GTree.rsp [])])]), GTree.mv 2 (GTree.rsp [GTree.mv 6
    (GTree.rsp []), GTree.mv 6 (GTree.rsp []), GTree.mv 6 (GTree.rsp []), GTree.mv 8 (GTree.rsp
    [GTree.mv 3 (GTree.rsp [GTree.rsp []]), GTree.mv 0 (GTree.rsp []), GTree.mv 0 (GTree.rsp
    [])]), GTree.mv 6 (GTree.rsp [])]), GTree.mv 8 (GTree.rsp [GTree.mv 3 (GTree.rsp [GTree.mv
    5 (GTree.rsp []), GTree.mv 5 (GTree.rsp []), GTree.mv 1 (GTree.rsp [GTree.rsp []])]),
    GTree.mv 0 (GTree.rsp []), GTree.mv 0 (GTree.rsp []), GTree.mv 0 (GTree.rsp []), GTree.mv 0
    (GTree.rsp [])]), GTree.mv 6 (GTree.rsp [GTree.mv 2 (GTree.rsp []), GTree.mv 2 (GTree.rsp
    []), GTree.mv 5 (GTree.rsp [GTree.mv 3 (GTree.rsp []), GTree.mv 3 (GTree.rsp []), GTree.mv
    0 (GTree.rsp [GTree.rsp []])]), GTree.mv 2 (GTree.rsp []), GTree.mv 2 (GTree.rsp [])])])

def tOppO8 : GTree :=
  GTree.mv 4 (GTree.rsp [GTree.mv 1 (GTree.rsp [GTree.mv 7 (GTree.rsp []), GTree.mv 7
    (GTree.rsp []), GTree.mv 7 (GTree.rsp []), GTree.mv 7 (GTree.rsp []), GTree.mv 6 (GTree.rsp
    [GTree.mv 5 (GTree.rsp [GTree.rsp []]), GTree.mv 2 (GTree.rsp []), GTree.mv 2 (GTree.rsp
    [])])]), GTree.mv 3 (GTree.rsp [GTree.mv 5 (GTree.rsp []), GTree.mv 5 (GTree.rsp []),
    GTree.mv 2 (GTree.rsp [GTree.mv 6 (GTree.rsp []), GTree.mv 7 (GTree.rsp [GTree.rsp []]),
    GTree.mv 6 (GTree.rsp [])]), GTree.mv 5 (GTree.rsp []), GTree.mv 5 (GTree.rsp [])]),
    GTree.mv 5 (GTree.rsp [GTree.mv 3 (GTree.rsp []), GTree.mv 3 (GTree.rsp []), GTree.mv 1
    (GTree.rsp [GTree.mv 7 (GTree.rsp []), GTree.mv 7 (GTree.rsp []), GTree.mv 6 (GTree.rsp
    [GTree.rsp []])]), GTree.mv 3 (GTree.rsp []), GTree.mv 3 (GTree.rsp [])]), GTree.mv 1
    (GTree.rsp [GTree.mv 7 (GTree.rsp []), GTree.mv 7 (GTree.rsp []), GTree.mv 7 (GTree.rsp
    []), GTree.mv 7 (GTree.rsp []), GTree.mv 6 (GTree.rsp [GTree.mv 2 (GTree.rsp []), GTree.mv
    5 (GTree.rsp [GTree.rsp []]), GTree.mv 2 (GTree.rsp [])])]), GTree.mv 2 (GTree.rsp
    [GTree.mv 6 (GTree.rsp []), GTree.mv 6 (GTree.rsp []), GTree.mv 6 (GTree.rsp []), GTree.mv
    7 (GTree.rsp [GTree.mv 1 (GTree.rsp []), GTree.mv 0 (GTree.rsp [GTree.rsp []]), GTree.mv 1
    (GTree.rsp [])]), GTree.mv 6 (GTree.rsp [])]), GTree.mv 7 (GTree.rsp [GTree.mv 1 (GTree.rsp
    []), GTree.mv 3 (GTree.rsp [GTree.mv 5 (GTree.rsp []), GTree.mv 5 (GTree.rsp []), GTree.mv
    2 (GTree.rsp [GTree.rsp []])]), GTree.mv 1 (GTree.rsp []), GTree.mv 1 (GTree.rsp []),
    GTree.mv 1 (GTree.rsp [])]), GTree.mv 6 (GTree.rsp [GTree.mv 2 (GTree.rsp []), GTree.mv 2
    (GTree.rsp []), GTree.mv 5 (GTree.rsp [GTree.mv 3 (GTree.rsp []), GTree.mv 3 (GTree.rsp
    []), GTree.mv 0 (GTree.rsp [GTree.rsp []])]), GTree.mv 2 (GTree.rsp []), GTree.mv 2
    (GTree.rsp [])])])

def tSelfO0 : GTree :=
  GTree.rsp [GTree.mv 3 (GTree.rsp [GTree.mv 6 (GTree.rsp []), GTree.mv 6 (GTree.rsp []),
    GTree.mv 6 (GTree.rsp []), GTree.mv 4 (GTree.rsp [GTree.mv 5 (GTree.rsp []), GTree.mv 8
    (GTree.rsp []), GTree.mv 5 (GTree.rsp []), GTree.mv 5 (GTree.rsp [])]), GTree.mv 6
    (GTree.rsp []), GTree.mv 6 (GTree.rsp [])]), GTree.mv 3 (GTree.rsp [GTree.mv 6 (GTree.rsp
    []), GTree.mv 6 (GTree.rsp []), GTree.mv 6 (GTree.rsp []), GTree.mv 4 (GTree.rsp [GTree.mv
    5 (GTree.rsp []), GTree.mv 8 (GTree.rsp []), GTree.mv 5 (GTree.rsp []), GTree.mv 5
    (GTree.rsp [])]), GTree.mv 6 (GTree.rsp []), GTree.mv 6 (GTree.rsp [])]), GTree.mv 1
    (GTree.rsp [GTree.mv 4 (GTree.rsp [GTree.mv 7 (GTree.rsp []), GTree.mv 7 (GTree.rsp []),
    GTree.mv 8 (GTree.rsp []), GTree.mv 7 (GTree.rsp [])]), GTree.mv 2 (GTree.rsp []), GTree.mv
    2 (GTree.rsp []), GTree.mv 2 (GTree.rsp []), GTree.mv 2 (GTree.rsp []), GTree.mv 2
    (GTree.rsp [])]), GTree.mv 1 (GTree.rsp [GTree.mv 6 (GTree.rsp [GTree.mv 5 (GTree.rsp
    [GTree.mv 8 (GTree.rsp []), GTree.mv 7 (GTree.rsp [])]), GTree.mv 3 (GTree.rsp []),
    GTree.mv 3 (GTree.rsp []), GTree.mv 3 (GTree.rsp [])]), GTree.mv 2 (GTree.rsp []), GTree.mv
    2 (GTree.rsp []), GTree.mv 2 (GTree.rsp []), GTree.mv 2 (GTree.rsp []), GTree.mv 2
    (GTree.rsp [])]), GTree.mv 2 (GTree.rsp [GTree.mv 4 (GTree.rsp [GTree.mv 6 (GTree.rsp []),
    GTree.mv 8 (GTree.rsp []), GTree.mv 6 (GTree.rsp []), GTree.mv 6 (GTree.rsp [])]), GTree.mv
    1 (GTree.rsp []), GTree.mv 1 (GTree.rsp []), GTree.mv 1 (GTree.rsp []), GTree.mv 1
    (GTree.rsp []), GTree.mv 1 (GTree.rsp [])]), GTree.mv 1 (GTree.rsp [GTree.mv 4 (GTree.rsp
    [GTree.mv 7 (GTree.rsp []), GTree.mv 7 (GTree.rsp []), GTree.mv 8 (GTree.rsp []), GTree.mv
    7 (GTree.rsp [])]), GTree.mv 2 (GTree.rsp []), GTree.mv 2 (GTree.rsp []), GTree.mv 2
    (GTree.rsp []), GTree.mv 2 (GTree.rsp []), GTree.mv 2 (GTree.rsp [])]), GTree.mv 2
    (GTree.rsp [GTree.mv 4 (GTree.rsp [GTree.mv 6 (GTree.rsp []), GTree.mv 6 (GTree.rsp []),
    GTree.mv 8 (GTree.rsp []), GTree.mv 6 (GTree.rsp [])]), GTree.mv 1 (GTree.rsp []), GTree.mv
    1 (GTree.rsp []), GTree.mv 1 (GTree.rsp []), GTree.mv 1 (GTree.rsp []), GTree.mv 1
    (GTree.rsp [])]), GTree.mv 2 (GTree.rsp [GTree.mv 6 (GTree.rsp [GTree.mv 4 (GTree.rsp []),
    GTree.mv 3 (GTree.rsp []), GTree.mv 3 (GTree.rsp []), GTree.mv 3 (GTree.rsp [])]), GTree.mv
    1 (GTree.rsp []), GTree.mv 1 (GTree.rsp []), GTree.mv 1 (GTree.rsp []), GTree.mv 1
    (GTree.rsp []), GTree.mv 1 (GTree.rsp [])])]

theorem chk_OppX :
    (checkGE 9 (setCell emptyBoard 0 Cell.X) Cell.O Cell.O tOppX0 = true ∧
     checkGE 9 (setCell emptyBoard 1 Cell.X) Cell.O Cell.O tOppX1 = true ∧
     checkGE 9 (setCell emptyBoard 2 Cell.X) Cell.O Cell.O tOppX2 = true) ∧
    (checkGE 9 (setCell emptyBoard 3 Cell.X) Cell.O Cell.O tOppX3 = true ∧
     checkGE 9 (setCell emptyBoard 4 Cell.X) Cell.O Cell.O tOppX4 = true ∧
     checkGE 9 (setCell emptyBoard 5 Cell.X) Cell.O Cell.O tOppX5 = true) ∧
    (checkGE 9 (setCell emptyBoard 6 Cell.X) Cell.O Cell.O tOppX6 = true ∧
     checkGE 9 (setCell emptyBoard 7 Cell.X) Cell.O Cell.O tOppX7 = true ∧
     checkGE 9 (setCell emptyBoard 8 Cell.X) Cell.O Cell.O tOppX8 = true) := by
  decide

theorem chk_OppO :
    (checkGE 9 (setCell emptyBoard 0 Cell.O) Cell.X Cell.X tOppO0 = true ∧
     checkGE 9 (setCell emptyBoard 1 Cell.O) Cell.X Cell.X tOppO1 = true ∧
     checkGE 9 (setCell emptyBoard 2 Cell.O) Cell.X Cell.X tOppO2 = true) ∧
    (checkGE 9 (setCell emptyBoard 3 Cell.O) Cell.X Cell.X tOppO3 = true ∧
     checkGE 9 (setCell emptyBoard 4 Cell.O) Cell.X Cell.X tOppO4 = true ∧
     checkGE 9 (setCell emptyBoard 5 Cell.O) Cell.X Cell.X tOppO5 = true) ∧
    (checkGE 9 (setCell emptyBoard 6 Cell.O) Cell.X Cell.X tOppO6 = true ∧
     checkGE 9 (setCell emptyBoard 7 Cell.O) Cell.X Cell.X tOppO7 = true ∧
     checkGE 9 (setCell emptyBoard 8 Cell.O) Cell.X Cell.X tOppO8 = true) := by
  decide

theorem chk_Self :
    checkGE 9 (setCell emptyBoard 0 Cell.X) Cell.O Cell.X tSelfX0 = true ∧
    checkGE 9 (setCell emptyBoard 0 Cell.O) Cell.X Cell.O tSelfO0 = true := by
  decide

/-! Scores of the nine opening moves. -/

theorem score_le_zero_X (b2 : Board) (hlen : b2.length = 9) (t2 : GTree)
    (h : checkGE 9 b2 Cell.O Cell.O t2 = true) :
    minimax 9 b2 Cell.O Cell.X ≤ 0 := by
  have h0 := checkGE_sound 9 b2 Cell.O Cell.O t2 h
  have hn := minimax_neg 9 b2 Cell.O hlen (Or.inr rfl)
  omega

theorem score_le_zero_O (b2 : Board) (hlen : b2.length = 9) (t2 : GTree)
    (h : checkGE 9 b2 Cell.X Cell.X t2 = true) :
    minimax 9 b2 Cell.X Cell.O ≤ 0 := by
  have h0 := checkGE_sound 9 b2 Cell.X Cell.X t2 h
  have hn := minimax_neg 9 b2 Cell.X hlen (Or.inl rfl)
  omega

theorem score_zero_X0 :
    minimax 9 (setCell emptyBoard 0 Cell.X) (opponent Cell.X) Cell.X = 0 := by
  show minimax 9 (setCell emptyBoard 0 Cell.X) Cell.O Cell.X = 0
  have hle : minimax 9 (setCell emptyBoard 0 Cell.X) Cell.O Cell.X ≤ 0 :=
    score_le_zero_X _ (by simp [setCell, emptyBoard]) tOppX0 chk_OppX.1.1
  have hge := checkGE_sound 9 (setCell emptyBoard 0 Cell.X) Cell.O Cell.X
    tSelfX0 chk_Self.1
  omega

theorem score_zero_O0 :
    minimax 9 (setCell emptyBoard 0 Cell.O) (opponent Cell.O) Cell.O = 0 := by
  show minimax 9 (setCell emptyBoard 0 Cell.O) Cell.X Cell.O = 0
  have hle : minimax 9 (setCell emptyBoard 0 Cell.O) Cell.X Cell.O ≤ 0 :=
    score_le_zero_O _ (by simp [setCell, emptyBoard]) tOppO0 chk_OppO.1.1
  have hge := checkGE_sound 9 (setCell emptyBoard 0 Cell.O) Cell.X Cell.O
    tSelfO0 chk_Self.2
  omega

/-! Evaluating the best_move loop on the empty board. -/

theorem bmStep_take (b : Board) (p : Cell) (i : Nat)
    (h1 : getCell b i = Cell.Empty)
    (hsc : minimax 9 (setCell b i p) (opponent p) p = 0) :
    bmStep b p (intMin, none) i = (0, some i) := by
  unfold bmStep
  dsimp only
  rw [if_pos h1, hsc, if_pos (by norm_num [intMin] : (0 : Int) > intMin)]

theorem bmStep_keep (b : Board) (p : Cell) (i : Nat)
    (hsc : minimax 9 (setCell b i p) (opponent p) p ≤ 0)
    (hbl : ¬ is_block_move b i p = true) :
    bmStep b p (0, some 0) i = (0, some 0) := by
  unfold bmStep
  dsimp only
  by_cases h1 : getCell b i = Cell.Empty
  · rw [if_pos h1,
      if_neg (by omega : ¬ minimax 9 (setCell b i p) (opponent p) p > (0 : Int))]
    by_cases he : minimax 9 (setCell b i p) (opponent p) p = (0 : Int)
    · rw [if_pos he, if_neg (fun hc => hbl hc.1)]
    · rw [if_neg he]
  · rw [if_neg h1]

theorem bm_empty_X : best_move emptyBoard Cell.X = some 0 := by
  have h0 := bmStep_take emptyBoard Cell.X 0 (by decide) score_zero_X0
  have h1 := bmStep_keep emptyBoard Cell.X 1
    (score_le_zero_X _ (by simp [setCell, emptyBoard]) tOppX1 chk_OppX.1.2.1) (by decide)
  have h2 := bmStep_keep emptyBoard Cell.X 2
    (score_le_zero_X _ (by simp [setCell, emptyBoard]) tOppX2 chk_OppX.1.2.2) (by decide)
  have h3 := bmStep_keep emptyBoard Cell.X 3
    (score_le_zero_X _ (by simp [setCell, emptyBoard]) tOppX3 chk_OppX.2.1.1) (by decide)
  have h4 := bmStep_keep emptyBoard Cell.X 4
    (score_le_zero_X _ (by simp [setCell, emptyBoard]) tOppX4 chk_OppX.2.1.2.1) (by decide)
  have h5 := bmStep_keep emptyBoard Cell.X 5
    (score_le_zero_X _ (by simp [setCell, emptyBoard]) tOppX5 chk_OppX.2.1.2.2) (by decide)
  have h6 := bmStep_keep emptyBoard Cell.X 6
    (score_le_zero_X _ (by simp [setCell, emptyBoard]) tOppX6 chk_OppX.2.2.1) (by decide)
  have h7 := bmStep_keep emptyBoard Cell.X 7
    (score_le_zero_X _ (by simp [setCell, emptyBoard]) tOppX7 chk_OppX.2.2.2.1) (by decide)
  have h8 := bmStep_keep emptyBoard Cell.X 8
    (score_le_zero_X _ (by simp [setCell, emptyBoard]) tOppX8 chk_OppX.2.2.2.2) (by decide)
  unfold best_move
  rw [if_neg (by decide : ¬ _),
    (by decide : List.range 9 = [0, 1, 2, 3, 4, 5, 6, 7, 8]),
    List.foldl_cons, List.foldl_cons, List.foldl_cons, List.foldl_cons,
    List.foldl_cons, List.foldl_cons, List.foldl_cons, List.foldl_cons,
    List.foldl_cons, List.foldl_nil,
    h0, h1, h2, h3, h4, h5, h6, h7, h8]

theorem bm_empty_O : best_move emptyBoard Cell.O = some 0 := by
  have h0 := bmStep_take emptyBoard Cell.O 0 (by decide) score_zero_O0
  have h1 := bmStep_keep emptyBoard Cell.O 1
    (score_le_zero_O _ (by simp [setCell, emptyBoard]) tOppO1 chk_OppO.1.2.1) (by decide)
  have h2 := bmStep_keep emptyBoard Cell.O 2
    (score_le_zero_O _ (by simp [setCell, emptyBoard]) tOppO2 chk_OppO.1.2.2) (by decide)
  have h3 := bmStep_keep emptyBoard Cell.O 3
    (score_le_zero_O _ (by simp [setCell, emptyBoard]) tOppO3 chk_OppO.2.1.1) (by decide)
  have h4 := bmStep_keep emptyBoard Cell.O 4
    (score_le_zero_O _ (by simp [setCell, emptyBoard]) tOppO4 chk_OppO.2.1.2.1) (by decide)
  have h5 := bmStep_keep emptyBoard Cell.O 5
    (score_le_zero_O _ (by simp [setCell, emptyBoard]) tOppO5 chk_OppO.2.1.2.2) (by decide)
  have h6 := bmStep_keep emptyBoard Cell.O 6
    (score_le_zero_O _ (by simp [setCell, emptyBoard]) tOppO6 chk_OppO.2.2.1) (by decide)
  have h7 := bmStep_keep emptyBoard Cell.O 7
    (score_le_zero_O _ (by simp [setCell, emptyBoard]) tOppO7 chk_OppO.2.2.2.1) (by decide)
  have h8 := bmStep_keep emptyBoard Cell.O 8
    (score_le_zero_O _ (by simp [setCell, emptyBoard]) tOppO8 chk_OppO.2.2.2.2) (by decide)
  unfold best_move
  rw [if_neg (by decide : ¬ _),
    (by decide : List.range 9 = [0, 1, 2, 3, 4, 5, 6, 7, 8]),
    List.foldl_cons, List.foldl_cons, List.foldl_cons, List.foldl_cons,
    List.foldl_cons, List.foldl_cons, List.foldl_cons, List.foldl_cons,
    List.foldl_cons, List.foldl_nil,
    h0, h1, h2, h3, h4, h5, h6, h7, h8]

/-! The claims. -/

/-- C1: the minimax value function equals the standard reference definition
of the spec: a completed WinLine scores 1 for the maximizing player and -1
otherwise, a full board with no winner scores 0, and every other board
propagates the maximum (on the maximizing player's turn) or minimum
(otherwise) of the successors' scores, for every length-9 board, valid turn
and valid maximizing player. -/
theorem claim1_minimax_eq_reference : ∀ (fuel : Nat) (b : Board) (turn maxim : Cell),
    b.length = 9 → (turn = Cell.X ∨ turn = Cell.O) →
    (maxim = Cell.X ∨ maxim = Cell.O) →
    minimax fuel b turn maxim = minimaxRef fuel b turn maxim :=
  fun fuel b turn maxim hb ht _ => minimax_eq_ref fuel b turn maxim hb ht

/-- Witness for C1 at fuel 2, the empty board, turn PlayerA and maximizing
player PlayerB. -/
theorem claim1_witness :
    minimax 2 emptyBoard Cell.X Cell.O = minimaxRef 2 emptyBoard Cell.X Cell.O :=
  claim1_minimax_eq_reference 2 emptyBoard Cell.X Cell.O (by decide)
    (Or.inl rfl) (Or.inr rfl)

/-- C2: best_move selects its result exactly as the spec describes the
iteration: indices 0 through 8 in order over the empty cells, tracking the
best score and best index, replacing on a strictly higher score, and on an
equal score replacing only when the candidate blocks and the current best
does not; in particular it is a deterministic function of board and
player. -/
theorem claim2_best_move_eq_reference : ∀ (b : Board) (p : Cell), b.length = 9 →
    best_move b p = bestMoveRef b p := by
  intro b p hb
  by_cases hv : p = Cell.X ∨ p = Cell.O
  · have hv2 : ¬ (p ≠ Cell.X ∧ p ≠ Cell.O) := by
      rcases hv with h | h <;> simp [h]
    unfold best_move bestMoveRef
    rw [if_neg hv2, if_pos hv]
    have hrel := bm_fold_rel b p hb (List.range 9) (intMin, none) none
      (Or.inl ⟨rfl, rfl, rfl⟩)
    rcases hrel with ⟨_, h2, h3⟩ | ⟨i, h1, h2, _, _⟩
    · rw [h2, h3]
      rfl
    · rw [h1, h2]
      rfl
  · have hv2 : p ≠ Cell.X ∧ p ≠ Cell.O := by
      constructor <;> intro h <;> exact hv (by simp [h])
    unfold best_move bestMoveRef
    rw [if_pos hv2, if_neg hv]

/-- Witness for C2 on the empty board with the invalid player Empty. -/
theorem claim2_witness :
    best_move emptyBoard Cell.Empty = bestMoveRef emptyBoard Cell.Empty :=
  claim2_best_move_eq_reference emptyBoard Cell.Empty (by decide)

/-- C3: check_winner returns the occupying symbol of the first WinLine, in
the fixed enumeration order, whose three cells are equal and non-empty, and
returns nothing when no WinLine is completed (the find-based reference
formulation captures both clauses). -/
theorem claim3_winner_first_line : ∀ b : Board, check_winner b = winnerRef b :=
  check_winner_eq_winnerRef

/-- C4, counterexample: on the board [X,O,X,O,X,O,X,O,X] the claim that
winner returns nothing is false. -/
theorem claim4_counterexample :
    ¬ (check_winner [Cell.X, Cell.O, Cell.X, Cell.O, Cell.X, Cell.O,
      Cell.X, Cell.O, Cell.X] = none) := by
  decide

/-- C4, amended: on the board [X,O,X,O,X,O,X,O,X] check_winner returns
PlayerA, whose diagonal 0,4,8 is complete. -/
theorem claim4_amended_winner :
    check_winner [Cell.X, Cell.O, Cell.X, Cell.O, Cell.X, Cell.O,
      Cell.X, Cell.O, Cell.X] = some Cell.X := by
  decide

/-- C5: for a length-9 board, best_move returns nothing exactly when the
player is neither PlayerA nor PlayerB or the board has no empty cell. -/
theorem claim5_none_iff : ∀ (b : Board) (p : Cell), b.length = 9 →
    (best_move b p = none ↔ ((p ≠ Cell.X ∧ p ≠ Cell.O) ∨ is_full b)) := by
  intro b p hb
  constructor
  · intro hn
    by_cases hv : p ≠ Cell.X ∧ p ≠ Cell.O
    · exact Or.inl hv
    · right
      unfold best_move at hn
      rw [if_neg hv] at hn
      by_contra hf
      have hmem : Cell.Empty ∈ b := by
        by_contra hc
        exact hf hc
      obtain ⟨i, hi, he⟩ := (empty_mem_iff b).mp hmem
      obtain ⟨j, hj⟩ := bm_fold_reaches_some b p hb (List.range 9) (intMin, none)
        (by norm_num [intMin]) ⟨i, List.mem_range.mpr (hb ▸ hi), he⟩
      rw [hn] at hj
      simp at hj
  · rintro (hv | hf)
    · unfold best_move
      rw [if_pos hv]
    · by_cases hv : p ≠ Cell.X ∧ p ≠ Cell.O
      · unfold best_move
        rw [if_pos hv]
      · unfold best_move
        rw [if_neg hv]
        rw [bm_fold_const b p (List.range 9) (intMin, none)
          (fun i hir hie => hf ((empty_mem_iff b).mpr
            ⟨i, by rw [hb]; exact List.mem_range.mp hir, hie⟩))]

/-- Witness for C5 on a full drawn board with PlayerA. -/
theorem claim5_witness :
    best_move [Cell.X, Cell.O, Cell.X, Cell.X, Cell.O, Cell.O,
      Cell.O, Cell.X, Cell.X] Cell.X = none :=
  (claim5_none_iff [Cell.X, Cell.O, Cell.X, Cell.X, Cell.O, Cell.O,
    Cell.O, Cell.X, Cell.X] Cell.X (by decide)).mpr (Or.inr (by decide))

/-- C6, counterexample: on the board with PlayerB at cells 0 and 1,
is_block_move at index 0 for PlayerA returns true although index 0 is
occupied by the opponent, so the third cell of the line is not the index
itself and the claimed equivalence fails. -/
theorem claim6_counterexample :
    is_block_move [Cell.O, Cell.O, Cell.Empty, Cell.Empty, Cell.Empty,
      Cell.Empty, Cell.Empty, Cell.Empty, Cell.Empty] 0 Cell.X = true ∧
    ¬ specBlock [Cell.O, Cell.O, Cell.Empty, Cell.Empty, Cell.Empty,
      Cell.Empty, Cell.Empty, Cell.Empty, Cell.Empty] 0 Cell.X := by
  decide

/-- C6, amended: is_block_move returns true exactly when the index belongs
to at least one WinLine in which the opponent occupies exactly 2 of the 3
cells and one cell of the line is empty (the code does not require the
empty cell to be the index itself; the two conditions coincide whenever the
cell at the index is empty). -/
theorem claim6_amended_block_iff : ∀ (b : Board) (i : Nat) (p : Cell),
    (p = Cell.X ∨ p = Cell.O) →
    (is_block_move b i p = true ↔ ∃ t ∈ WIN_CONDITIONS,
      (i = t.1 ∨ i = t.2.1 ∨ i = t.2.2) ∧
      lineCount b t (opponent p) = 2 ∧ lineCount b t Cell.Empty = 1) := by
  intro b i p hp
  rcases hp with h | h <;> subst h <;>
    simp [is_block_move, blockLine, List.any_eq_true, opponent]

/-- Witness for C6 on the board with PlayerB at cells 0 and 1, index 2 and
PlayerA. -/
theorem claim6_witness :
    is_block_move [Cell.O, Cell.O, Cell.Empty, Cell.Empty, Cell.Empty,
      Cell.Empty, Cell.Empty, Cell.Empty, Cell.Empty] 2 Cell.X = true :=
  (claim6_amended_block_iff [Cell.O, Cell.O, Cell.Empty, Cell.Empty, Cell.Empty,
    Cell.Empty, Cell.Empty, Cell.Empty, Cell.Empty] 2 Cell.X (Or.inl rfl)).mpr
    (by decide)

/-- C7, counterexample: make_move with player code 0 at the empty cell 0 of
the empty board fails although the index is in range and the cell is empty,
so the claimed characterisation of failure is incomplete. -/
theorem claim7_counterexample :
    (make_move emptyBoard 0 0).1 = false ∧ ¬ (9 ≤ 0) ∧
      getCell emptyBoard 0 = Cell.Empty := by
  decide

/-- C7, amended: make_move fails exactly when the index is out of range,
the target cell is not empty, or the player code is neither 1 nor 2; it
never panics, and whenever it fails the board is left unchanged. -/
theorem claim7_amended_failure : ∀ (b : Board) (i p : Nat),
    ((make_move b i p).1 = false ↔
      (9 ≤ i ∨ getCell b i ≠ Cell.Empty ∨ (p ≠ 1 ∧ p ≠ 2))) ∧
    ((make_move b i p).1 = false → (make_move b i p).2 = b) := by
  intro b i p
  by_cases h1 : 9 ≤ i ∨ getCell b i ≠ Cell.Empty
  · have hm : make_move b i p = (false, b) := by
      unfold make_move
      rw [if_pos h1]
    rw [hm]
    refine ⟨⟨fun _ => ?_, fun _ => rfl⟩, fun _ => rfl⟩
    rcases h1 with h | h
    · exact Or.inl h
    · exact Or.inr (Or.inl h)
  · have hi9 : ¬ 9 ≤ i := fun h => h1 (Or.inl h)
    have hie : getCell b i = Cell.Empty := by
      by_contra hc
      exact h1 (Or.inr hc)
    rcases p with _ | _ | _ | q
    · have hm : make_move b i 0 = (false, b) := by
        unfold make_move
        rw [if_neg h1]
      rw [hm]
      exact ⟨⟨fun _ => Or.inr (Or.inr ⟨by decide, by decide⟩), fun _ => rfl⟩,
        fun _ => rfl⟩
    · have hm : make_move b i 1 = (true, setCell b i Cell.X) := by
        unfold make_move
        rw [if_neg h1]
      rw [hm]
      refine ⟨⟨fun h => ?_, fun hr => ?_⟩, fun h => ?_⟩
      · simp at h
      · rcases hr with h | h | h
        · exact absurd h hi9
        · exact absurd hie h
        · exact absurd rfl h.1
      · simp at h
    · have hm : make_move b i 2 = (true, setCell b i Cell.O) := by
        unfold make_move
        rw [if_neg h1]
      rw [hm]
      refine ⟨⟨fun h => ?_, fun hr => ?_⟩, fun h => ?_⟩
      · simp at h
      · rcases hr with h | h | h
        · exact absurd h hi9
        · exact absurd hie h
        · exact absurd rfl h.2
      · simp at h
    · have hm : make_move b i (q + 3) = (false, b) := by
        unfold make_move
        rw [if_neg h1]
        show (false, b) = (false, b)
        rfl
      rw [hm]
      exact ⟨⟨fun _ => Or.inr (Or.inr ⟨by omega, by omega⟩), fun _ => rfl⟩,
        fun _ => rfl⟩

/-- C8: whenever best_move returns an index, that index is in range 0..8
and the cell there is empty; best_move never returns an occupied index. -/
theorem claim8_returns_empty : ∀ (b : Board) (p : Cell) (i : Nat),
    best_move b p = some i → i < 9 ∧ getCell b i = Cell.Empty := by
  intro b p i h
  unfold best_move at h
  by_cases hv : p ≠ Cell.X ∧ p ≠ Cell.O
  · rw [if_pos hv] at h
    simp at h
  · rw [if_neg hv] at h
    exact bm_fold_inv b p (List.range 9) (intMin, none)
      (fun j hj => by simp at hj) (fun j hj => List.mem_range.mp hj) i h

/-- Witness for C8 on a board whose only empty cell is 4. -/
theorem claim8_witness :
    4 < 9 ∧ getCell [Cell.X, Cell.O, Cell.X, Cell.O, Cell.Empty, Cell.O,
      Cell.X, Cell.O, Cell.X] 4 = Cell.Empty :=
  claim8_returns_empty [Cell.X, Cell.O, Cell.X, Cell.O, Cell.Empty, Cell.O,
    Cell.X, Cell.O, Cell.X] Cell.X 4 (by decide)

/-- C9: on every board reachable from the empty board by legal alternating
placements that stop once a player has won, PlayerA and PlayerB never both
have a complete WinLine, so check_winner reports at most one distinct
symbol. -/
theorem claim9_no_double_win : ∀ (b : Board) (p : Cell), Reachable b p →
    ¬ (hasWinLine b Cell.X ∧ hasWinLine b Cell.O) :=
  reachable_no_double_win

/-- Witness for C9 at the empty board. -/
theorem claim9_witness :
    ¬ (hasWinLine emptyBoard Cell.X ∧ hasWinLine emptyBoard Cell.O) :=
  claim9_no_double_win emptyBoard Cell.X (Reachable.start Cell.X (Or.inl rfl))

/-- C10: on the all-empty board best_move returns index 0, a corner and not
the center, for both PlayerA and PlayerB: all nine openings tie at minimax
score 0, no opening is a blocking move, and the first-encountered index is
kept. -/
theorem claim10_empty_board_corner :
    best_move emptyBoard Cell.X = some 0 ∧ best_move emptyBoard Cell.O = some 0 :=
  ⟨bm_empty_X, bm_empty_O⟩
